import Mathlib

/-
  Verification development for the MQTT/TimescaleDB sensor service.

  Shallow embedding of src/mqtt_app.py (the pub/sub bridge and its ten
  message handlers) and of the store-level semantics of the SQL statements
  they issue.  Python/JSON values are modelled by `PyVal` (with Python
  truthiness), the sensor_data table by `List Row`, and the external
  environment (connection failures, injected query failures, NOW(),
  the TimescaleDB time_bucket function) by `Env`.  Each handler is a total
  function returning the list of published response envelopes, the trace of
  connection/query events, and the committed table state.
-/

namespace MqttApp

/-- A JSON-decoded Python value, as produced by json.loads. `null` is Python
None; numbers are modelled by rationals. -/
inductive PyVal where
  | null
  | bool (b : Bool)
  | num (q : Rat)
  | str (s : String)
  | arr (xs : List PyVal)
  | obj (fields : List (String × PyVal))

/-- Python truthiness (`if x:`): None, False, 0, "", [] and \x7b\x7d are falsy. -/
def truthy : PyVal → Bool
  | .null => false
  | .bool b => b
  | .num q => q != 0
  | .str s => s != ""
  | .arr xs => !xs.isEmpty
  | .obj fs => !fs.isEmpty

/-- Python `x is None` test. -/
def isNull : PyVal → Bool
  | .null => true
  | _ => false

/-- Key lookup in a JSON object: a duplicated key keeps the last value, as
json.loads does when building the Python dict. -/
def lookupLast (k : String) : List (String × PyVal) → Option PyVal
  | [] => Option.none
  | (k', v) :: rest =>
      match lookupLast k rest with
      | Option.some w => Option.some w
      | Option.none => if k' = k then Option.some v else Option.none

/-- A caught Python exception, carrying its rendered message (`str(e)`). -/
structure Exc where
  msg : String
deriving DecidableEq, Repr

/-- Python `data.get(key)`: None when the key is absent; raises
AttributeError when `data` is not a dict. -/
def dictGet (v : PyVal) (k : String) : Except Exc PyVal :=
  match v with
  | .obj fs => .ok ((lookupLast k fs).getD .null)
  | _ => .error ⟨"object has no attribute get"⟩

/-- Python `data.get(key, default)`: the default only when the key is absent;
raises AttributeError when `data` is not a dict. -/
def dictGetD (v : PyVal) (k : String) (d : PyVal) : Except Exc PyVal :=
  match v with
  | .obj fs => .ok ((lookupLast k fs).getD d)
  | _ => .error ⟨"object has no attribute get"⟩

/-- Conversion of a bound parameter to an SQL integer: only an integral
number adapts; anything else raises at execute time. -/
def pyToInt (v : PyVal) : Option Int :=
  match v with
  | .num q => if q.den = 1 then Option.some q.num else Option.none
  | _ => Option.none

/-- Conversion of a bound parameter to a nullable SQL real: None adapts to
NULL, a number to itself; anything else raises at execute time. -/
def pyToOptReal (v : PyVal) : Option (Option Rat) :=
  match v with
  | .null => Option.some Option.none
  | .num q => Option.some (Option.some q)
  | _ => Option.none

/-- Python `str()` as used by f-string interpolation of the bucket value. -/
def pyStr : PyVal → String
  | .null => "None"
  | .bool b => if b then "True" else "False"
  | .num q => toString q
  | .str s => s
  | .arr _ => "list"
  | .obj _ => "dict"

/-- One row of the sensor_data hypertable.  `time` is an abstract absolute
timestamp; `(time, sensor_id)` is the identity key. -/
structure Row where
  time : Int
  sensor_id : Int
  temperature : Option Rat
  humidity : Option Rat
deriving DecidableEq, Repr

/-- The external world a handler invocation runs against: whether
get_db_connection raises, which execute calls raise an unclassified store
error (indexed by position for the bulk loop), whether result shaping
raises, the store clock NOW(), and the store-side semantics of the
caller-supplied time_bucket width string (validity and bucketing map). -/
structure Env where
  connectFail : Bool
  execFails : Nat → Bool
  shapingFails : Bool
  now : Int
  bucketValid : String → Bool
  bucketEval : String → Int → Int

/-- Store-connection events of one handler invocation, in order: connection
opened, connection closed, a query text sent to the store, COMMIT issued. -/
inductive Ev where
  | openC
  | closeC
  | execQ (query : String)
  | commitC
deriving DecidableEq, Repr

/-- One aggregate record of the stats query (nullable aggregates model SQL
NULL over empty value sets). -/
structure StatRow where
  sensor_id : Int
  total_readings : Nat
  avg_temperature : Option Rat
  min_temperature : Option Rat
  max_temperature : Option Rat
  avg_humidity : Option Rat
  min_humidity : Option Rat
  max_humidity : Option Rat
  first_reading : Option Int
  last_reading : Option Int
deriving DecidableEq, Repr

/-- One record of the time_bucket aggregation query. -/
structure BucketRow where
  bucket : Int
  sensor_id : Int
  avg_temperature : Option Rat
  avg_humidity : Option Rat
  readings : Nat
deriving DecidableEq, Repr

/-- The operation-specific `data` payload of a response envelope. -/
inductive RData where
  | err (msg : String)
  | healthOk
  | healthErr (msg : String)
  | rows (xs : List Row) (count : Nat)
  | created (r : Row)
  | bulkCreated (count : Nat)
  | updated (r : Row)
  | deleted (count : Nat)
  | deletedById (count : Nat) (sensor_id : Int)
  | stats (xs : List StatRow)
  | buckets (xs : List BucketRow) (bucket_size : String)
deriving DecidableEq, Repr

/-- A published response envelope: publish_response wraps `data` together
with `status_code` and sends it on `topic`. -/
structure Resp where
  topic : String
  status_code : Nat
  data : RData
deriving DecidableEq, Repr

/-- The observable outcome of one handler invocation: envelopes published,
store events in order, and the committed table afterwards. -/
structure HOut where
  pubs : List Resp
  events : List Ev
  db : List Row
deriving DecidableEq, Repr

/-- Shorthand for building a response envelope. -/
def resp (t : String) (c : Nat) (d : RData) : Resp := ⟨t, c, d⟩

/-- An inbound MQTT payload: empty (falsy bytes), a successfully decoded
JSON value, or one on which json.loads raises. -/
inductive Payload where
  | empty
  | parsed (v : PyVal)
  | malformed (msg : String)

/-- Decoding step `json.loads(payload) if payload else ` an empty dict. -/
def decodeObj : Payload → Except Exc PyVal
  | .empty => .ok (.obj [])
  | .parsed v => .ok v
  | .malformed m => .error ⟨m⟩

/-- Decoding step `json.loads(payload) if payload else ` an empty list
(the bulk handler's variant). -/
def decodeList : Payload → Except Exc PyVal
  | .empty => .ok (.arr [])
  | .parsed v => .ok v
  | .malformed m => .error ⟨m⟩

/-- The raw MQTT message payload as delivered by the broker, before the
`msg.payload.decode('utf-8')` step of on_message: falsy bytes (decoded to
the empty string), valid UTF-8 bytes together with the outcome of the
handler's later json.loads on the decoded text, or bytes that are not
valid UTF-8, on which decode itself raises UnicodeDecodeError. -/
inductive MsgBytes where
  | empty
  | utf8Parsed (v : PyVal)
  | utf8Malformed (m : String)
  | nonUtf8 (m : String)

/-- The decode step `msg.payload.decode('utf-8') if msg.payload else ''`
of on_message.  It runs outside every try/except of the source, so its
UnicodeDecodeError propagates out of the callback. -/
def decodeUtf8 : MsgBytes → Except Exc Payload
  | .empty => .ok .empty
  | .utf8Parsed v => .ok (.parsed v)
  | .utf8Malformed m => .ok (.malformed m)
  | .nonUtf8 m => .error ⟨m⟩

-- The ten request topics and ten response topics (the TOPICS dict).

def health_request : String := "sensors/health/request"
def get_all_request : String := "sensors/get_all/request"
def get_by_id_request : String := "sensors/get_by_id/request"
def create_request : String := "sensors/create/request"
def create_bulk_request : String := "sensors/create_bulk/request"
def update_request : String := "sensors/update/request"
def delete_request : String := "sensors/delete/request"
def delete_by_id_request : String := "sensors/delete_by_id/request"
def stats_request : String := "sensors/stats/request"
def time_bucket_request : String := "sensors/time_bucket/request"

def health_response : String := "sensors/health/response"
def get_all_response : String := "sensors/get_all/response"
def get_by_id_response : String := "sensors/get_by_id/response"
def create_response : String := "sensors/create/response"
def create_bulk_response : String := "sensors/create_bulk/response"
def update_response : String := "sensors/update/response"
def delete_response : String := "sensors/delete/response"
def delete_by_id_response : String := "sensors/delete_by_id/response"
def stats_response : String := "sensors/stats/response"
def time_bucket_response : String := "sensors/time_bucket/response"

-- Modelled exception messages (the str(e) texts are store/driver-side).

def connErrMsg : String := "connection to server failed"
def execErrMsg : String := "query failed"
def dupErrMsg : String := "duplicate key value violates unique constraint"
def adaptErrMsg : String := "cannot adapt parameter"
def shapeErrMsg : String := "shaping failed"
def attrErrMsg : String := "object has no attribute get"
def bucketErrMsg : String := "syntax error at or near the bucket width"

-- The SQL texts sent to the store (parameters bound as %s, except the
-- time_bucket width, which the source interpolates into the text).

def qGetAllFiltered : String :=
  "SELECT time, sensor_id, temperature, humidity FROM sensor_data WHERE sensor_id = %s AND time > NOW() - INTERVAL '%s hours' ORDER BY time DESC LIMIT %s"

def qGetAllUnfiltered : String :=
  "SELECT time, sensor_id, temperature, humidity FROM sensor_data WHERE time > NOW() - INTERVAL '%s hours' ORDER BY time DESC LIMIT %s"

def qGetById : String :=
  "SELECT time, sensor_id, temperature, humidity FROM sensor_data WHERE sensor_id = %s AND time > NOW() - INTERVAL '%s hours' ORDER BY time DESC"

def qInsertWithTime : String :=
  "INSERT INTO sensor_data (time, sensor_id, temperature, humidity) VALUES (%s, %s, %s, %s) RETURNING time, sensor_id, temperature, humidity"

def qInsertNow : String :=
  "INSERT INTO sensor_data (time, sensor_id, temperature, humidity) VALUES (NOW(), %s, %s, %s) RETURNING time, sensor_id, temperature, humidity"

def qBulkInsertWithTime : String :=
  "INSERT INTO sensor_data (time, sensor_id, temperature, humidity) VALUES (%s, %s, %s, %s)"

def qBulkInsertNow : String :=
  "INSERT INTO sensor_data (time, sensor_id, temperature, humidity) VALUES (NOW(), %s, %s, %s)"

def qUpdate : String :=
  "UPDATE sensor_data SET temperature = COALESCE(%s, temperature), humidity = COALESCE(%s, humidity) WHERE time = %s AND sensor_id = %s RETURNING time, sensor_id, temperature, humidity"

def qDelete : String :=
  "DELETE FROM sensor_data WHERE time = %s AND sensor_id = %s"

def qDeleteById : String :=
  "DELETE FROM sensor_data WHERE sensor_id = %s"

def qStatsFiltered : String :=
  "SELECT sensor_id, COUNT(*) as total_readings, AVG(temperature) as avg_temperature, MIN(temperature) as min_temperature, MAX(temperature) as max_temperature, AVG(humidity) as avg_humidity, MIN(humidity) as min_humidity, MAX(humidity) as max_humidity, MIN(time) as first_reading, MAX(time) as last_reading FROM sensor_data WHERE sensor_id = %s AND time > NOW() - INTERVAL '%s hours' GROUP BY sensor_id"

def qStatsUnfiltered : String :=
  "SELECT sensor_id, COUNT(*) as total_readings, AVG(temperature) as avg_temperature, MIN(temperature) as min_temperature, MAX(temperature) as max_temperature, AVG(humidity) as avg_humidity, MIN(humidity) as min_humidity, MAX(humidity) as max_humidity, MIN(time) as first_reading, MAX(time) as last_reading FROM sensor_data WHERE time > NOW() - INTERVAL '%s hours' GROUP BY sensor_id ORDER BY sensor_id"

-- The f-string query builders of handle_time_bucket: the caller-supplied
-- bucket width is concatenated into the query text, not bound as %s.

def qTimeBucketFiltered (bucket : String) : String :=
  "SELECT time_bucket('" ++ bucket ++ "', time) AS bucket, sensor_id, AVG(temperature) as avg_temperature, AVG(humidity) as avg_humidity, COUNT(*) as readings FROM sensor_data WHERE sensor_id = %s AND time > NOW() - INTERVAL '%s hours' GROUP BY bucket, sensor_id ORDER BY bucket DESC"

def qTimeBucketUnfiltered (bucket : String) : String :=
  "SELECT time_bucket('" ++ bucket ++ "', time) AS bucket, sensor_id, AVG(temperature) as avg_temperature, AVG(humidity) as avg_humidity, COUNT(*) as readings FROM sensor_data WHERE time > NOW() - INTERVAL '%s hours' GROUP BY bucket, sensor_id ORDER BY bucket DESC, sensor_id"

-- Store-level evaluation of the queries over the table contents.

/-- The time-window predicate of every range/aggregate query:
time greater than NOW() minus the requested number of hours. -/
def inWindow (now hours : Int) (r : Row) : Bool := now - hours < r.time

/-- Insertion step of a generic insertion sort by a boolean relation. -/
def insertBy (le : α → α → Bool) (x : α) : List α → List α
  | [] => [x]
  | y :: ys => if le x y then x :: y :: ys else y :: insertBy le x ys

/-- Insertion sort by a boolean relation. -/
def sortBy (le : α → α → Bool) : List α → List α
  | [] => []
  | x :: xs => insertBy le x (sortBy le xs)

/-- ORDER BY time DESC ordering on rows. -/
def timeDesc (a b : Row) : Bool := b.time ≤ a.time

/-- ORDER BY time DESC over a result set. -/
def sortTimeDesc (rows : List Row) : List Row := sortBy timeDesc rows

-- Aggregate helpers (SQL COUNT/AVG/MIN/MAX; NULL values are skipped by
-- the aggregates, and an aggregate over no values is NULL).

def ratSum (l : List Rat) : Rat := l.foldl (· + ·) 0

def optAvg (l : List Rat) : Option Rat :=
  match l with
  | [] => Option.none
  | _ => Option.some (ratSum l / (l.length : Rat))

def optMinRat (l : List Rat) : Option Rat :=
  match l with
  | [] => Option.none
  | x :: xs => Option.some (xs.foldl min x)

def optMaxRat (l : List Rat) : Option Rat :=
  match l with
  | [] => Option.none
  | x :: xs => Option.some (xs.foldl max x)

def optMinInt (l : List Int) : Option Int :=
  match l with
  | [] => Option.none
  | x :: xs => Option.some (xs.foldl min x)

def optMaxInt (l : List Int) : Option Int :=
  match l with
  | [] => Option.none
  | x :: xs => Option.some (xs.foldl max x)

/-- One GROUP BY sensor_id aggregate record of the stats query, over the
rows of that group. -/
def statOfGroup (sid : Int) (g : List Row) : StatRow :=
  let temps := g.filterMap (fun r => r.temperature)
  let hums := g.filterMap (fun r => r.humidity)
  ⟨sid, g.length, optAvg temps, optMinRat temps, optMaxRat temps,
   optAvg hums, optMinRat hums, optMaxRat hums,
   optMinInt (g.map (fun r => r.time)), optMaxInt (g.map (fun r => r.time))⟩

/-- ORDER BY sensor_id ascending on integers. -/
def intAsc (a b : Int) : Bool := a ≤ b

/-- The distinct sensor ids of a row set, in ascending order. -/
def distinctSensorIds (rows : List Row) : List Int :=
  sortBy intAsc (rows.map (fun r => r.sensor_id)).dedup

/-- Result of the unfiltered stats query over the windowed rows: one
aggregate record per sensor, ordered by sensor_id. -/
def statsAll (rows : List Row) : List StatRow :=
  (distinctSensorIds rows).map
    (fun sid => statOfGroup sid (rows.filter (fun r => r.sensor_id == sid)))

/-- Result of the sensor-filtered stats query: GROUP BY sensor_id over rows
already filtered to one sensor gives zero or one record. -/
def statsOne (sid : Int) (rows : List Row) : List StatRow :=
  match rows with
  | [] => []
  | _ => [statOfGroup sid rows]

/-- ORDER BY bucket DESC, sensor_id on (bucket, sensor_id) group keys. -/
def bucketKeyLe (a b : Int × Int) : Bool :=
  b.1 < a.1 || (a.1 == b.1 && a.2 ≤ b.2)

/-- Result of the time_bucket aggregation over the windowed rows: group by
(time_bucket(width, time), sensor_id), newest bucket first. -/
def bucketRowsOf (env : Env) (bucket : String) (rows : List Row) : List BucketRow :=
  let keys := sortBy bucketKeyLe (rows.map (fun r => (env.bucketEval bucket r.time, r.sensor_id))).dedup
  keys.map (fun k =>
    let g := rows.filter (fun r => env.bucketEval bucket r.time == k.1 && r.sensor_id == k.2)
    ⟨k.1, k.2, optAvg (g.filterMap (fun r => r.temperature)),
     optAvg (g.filterMap (fun r => r.humidity)), g.length⟩)

-- ============== MQTT MESSAGE HANDLERS ==============
-- Each is a direct translation of the handler of the same name in
-- src/mqtt_app.py: the whole body runs under one try/except, so every
-- failing step jumps to a single publish of an error envelope.

/-- Health check handler: open and close a connection, report healthy;
on connection failure report unhealthy with the error text. -/
def handle_health_check (env : Env) (db : List Row) (_payload : Payload) : HOut :=
  if env.connectFail then
    ⟨[resp health_response 500 (.healthErr connErrMsg)], [], db⟩
  else
    ⟨[resp health_response 200 .healthOk], [.openC, .closeC], db⟩

/-- Get all sensor data with optional filtering.  The connection is opened
before the payload is parsed; both query branches carry LIMIT. -/
def handle_get_all_sensors (env : Env) (db : List Row) (payload : Payload) : HOut :=
  if env.connectFail then
    ⟨[resp get_all_response 500 (.err connErrMsg)], [], db⟩
  else
    match decodeObj payload with
    | .error e => ⟨[resp get_all_response 500 (.err e.msg)], [.openC], db⟩
    | .ok data =>
      match dictGet data "sensor_id", dictGetD data "hours" (.num 24),
            dictGetD data "limit" (.num 100) with
      | .ok sensorV, .ok hoursV, .ok limitV =>
        if truthy sensorV then
          match pyToInt sensorV, pyToInt hoursV, pyToInt limitV with
          | Option.some sid, Option.some h, Option.some lim =>
            if env.execFails 0 || lim < 0 then
              ⟨[resp get_all_response 500 (.err execErrMsg)],
               [.openC, .execQ qGetAllFiltered], db⟩
            else
              let result := (sortTimeDesc (db.filter
                  (fun r => r.sensor_id == sid && inWindow env.now h r))).take lim.toNat
              if env.shapingFails then
                ⟨[resp get_all_response 500 (.err shapeErrMsg)],
                 [.openC, .execQ qGetAllFiltered, .closeC], db⟩
              else
                ⟨[resp get_all_response 200 (.rows result result.length)],
                 [.openC, .execQ qGetAllFiltered, .closeC], db⟩
          | _, _, _ => ⟨[resp get_all_response 500 (.err adaptErrMsg)], [.openC], db⟩
        else
          match pyToInt hoursV, pyToInt limitV with
          | Option.some h, Option.some lim =>
            if env.execFails 0 || lim < 0 then
              ⟨[resp get_all_response 500 (.err execErrMsg)],
               [.openC, .execQ qGetAllUnfiltered], db⟩
            else
              let result := (sortTimeDesc (db.filter
                  (fun r => inWindow env.now h r))).take lim.toNat
              if env.shapingFails then
                ⟨[resp get_all_response 500 (.err shapeErrMsg)],
                 [.openC, .execQ qGetAllUnfiltered, .closeC], db⟩
              else
                ⟨[resp get_all_response 200 (.rows result result.length)],
                 [.openC, .execQ qGetAllUnfiltered, .closeC], db⟩
          | _, _ => ⟨[resp get_all_response 500 (.err adaptErrMsg)], [.openC], db⟩
      | _, _, _ => ⟨[resp get_all_response 500 (.err attrErrMsg)], [.openC], db⟩

/-- Get data for a specific sensor: payload parsed first, 400 when
sensor_id is None, then the filtered query with no LIMIT clause. -/
def handle_get_sensor_by_id (env : Env) (db : List Row) (payload : Payload) : HOut :=
  match decodeObj payload with
  | .error e => ⟨[resp get_by_id_response 500 (.err e.msg)], [], db⟩
  | .ok data =>
    match dictGet data "sensor_id", dictGetD data "hours" (.num 24) with
    | .ok sensorV, .ok hoursV =>
      if isNull sensorV then
        ⟨[resp get_by_id_response 400 (.err "sensor_id is required")], [], db⟩
      else if env.connectFail then
        ⟨[resp get_by_id_response 500 (.err connErrMsg)], [], db⟩
      else
        match pyToInt sensorV, pyToInt hoursV with
        | Option.some sid, Option.some h =>
          if env.execFails 0 then
            ⟨[resp get_by_id_response 500 (.err execErrMsg)],
             [.openC, .execQ qGetById], db⟩
          else
            let result := sortTimeDesc (db.filter
                (fun r => r.sensor_id == sid && inWindow env.now h r))
            if env.shapingFails then
              ⟨[resp get_by_id_response 500 (.err shapeErrMsg)],
               [.openC, .execQ qGetById, .closeC], db⟩
            else
              ⟨[resp get_by_id_response 200 (.rows result result.length)],
               [.openC, .execQ qGetById, .closeC], db⟩
        | _, _ => ⟨[resp get_by_id_response 500 (.err adaptErrMsg)], [.openC], db⟩
    | _, _ => ⟨[resp get_by_id_response 500 (.err attrErrMsg)], [], db⟩

/-- Create new sensor data entry: empty payload then missing sensor_id are
rejected with 400; a duplicate (time, sensor_id) raises IntegrityError,
mapped to 409 with nothing committed. -/
def handle_create_sensor (env : Env) (db : List Row) (payload : Payload) : HOut :=
  match decodeObj payload with
  | .error e => ⟨[resp create_response 500 (.err e.msg)], [], db⟩
  | .ok data =>
    if !truthy data then
      ⟨[resp create_response 400 (.err "No data provided")], [], db⟩
    else
      match dictGet data "sensor_id", dictGet data "temperature",
            dictGet data "humidity", dictGet data "time" with
      | .ok sensorV, .ok tempV, .ok humV, .ok timeV =>
        if isNull sensorV then
          ⟨[resp create_response 400 (.err "sensor_id is required")], [], db⟩
        else if env.connectFail then
          ⟨[resp create_response 500 (.err connErrMsg)], [], db⟩
        else if truthy timeV then
          match pyToInt timeV, pyToInt sensorV, pyToOptReal tempV, pyToOptReal humV with
          | Option.some t, Option.some sid, Option.some tp, Option.some hm =>
            if env.execFails 0 then
              ⟨[resp create_response 500 (.err execErrMsg)],
               [.openC, .execQ qInsertWithTime], db⟩
            else if db.any (fun r => r.time == t && r.sensor_id == sid) then
              ⟨[resp create_response 409 (.err "Duplicate entry for this time and sensor_id")],
               [.openC, .execQ qInsertWithTime], db⟩
            else if env.shapingFails then
              ⟨[resp create_response 500 (.err shapeErrMsg)],
               [.openC, .execQ qInsertWithTime, .commitC, .closeC], db ++ [⟨t, sid, tp, hm⟩]⟩
            else
              ⟨[resp create_response 201 (.created ⟨t, sid, tp, hm⟩)],
               [.openC, .execQ qInsertWithTime, .commitC, .closeC], db ++ [⟨t, sid, tp, hm⟩]⟩
          | _, _, _, _ => ⟨[resp create_response 500 (.err adaptErrMsg)], [.openC], db⟩
        else
          match pyToInt sensorV, pyToOptReal tempV, pyToOptReal humV with
          | Option.some sid, Option.some tp, Option.some hm =>
            if env.execFails 0 then
              ⟨[resp create_response 500 (.err execErrMsg)],
               [.openC, .execQ qInsertNow], db⟩
            else if db.any (fun r => r.time == env.now && r.sensor_id == sid) then
              ⟨[resp create_response 409 (.err "Duplicate entry for this time and sensor_id")],
               [.openC, .execQ qInsertNow], db⟩
            else if env.shapingFails then
              ⟨[resp create_response 500 (.err shapeErrMsg)],
               [.openC, .execQ qInsertNow, .commitC, .closeC], db ++ [⟨env.now, sid, tp, hm⟩]⟩
            else
              ⟨[resp create_response 201 (.created ⟨env.now, sid, tp, hm⟩)],
               [.openC, .execQ qInsertNow, .commitC, .closeC], db ++ [⟨env.now, sid, tp, hm⟩]⟩
          | _, _, _ => ⟨[resp create_response 500 (.err adaptErrMsg)], [.openC], db⟩
      | _, _, _, _ => ⟨[resp create_response 500 (.err attrErrMsg)], [], db⟩

/-- The for-loop of handle_create_bulk_sensors over the supplied entries:
entries whose sensor_id is None are skipped; each other entry is inserted
into the transaction state and counted; any raising step aborts the loop
with the exception.  `i` indexes the entry for failure injection. -/
def bulkInsertLoop (env : Env) (entries : List PyVal) (i : Nat) (tx : List Row)
    (count : Nat) (evs : List Ev) : List Ev × Except Exc (List Row × Nat) :=
  match entries with
  | [] => (evs, .ok (tx, count))
  | e :: rest =>
    match dictGet e "sensor_id", dictGet e "temperature",
          dictGet e "humidity", dictGet e "time" with
    | .ok sensorV, .ok tempV, .ok humV, .ok timeV =>
      if isNull sensorV then
        bulkInsertLoop env rest (i + 1) tx count evs
      else
        match (if truthy timeV then pyToInt timeV else Option.some env.now),
              pyToInt sensorV, pyToOptReal tempV, pyToOptReal humV with
        | Option.some t, Option.some sid, Option.some tp, Option.some hm =>
          let q := if truthy timeV then qBulkInsertWithTime else qBulkInsertNow
          if env.execFails i then
            (evs ++ [.execQ q], .error ⟨execErrMsg⟩)
          else if tx.any (fun r => r.time == t && r.sensor_id == sid) then
            (evs ++ [.execQ q], .error ⟨dupErrMsg⟩)
          else
            bulkInsertLoop env rest (i + 1) (tx ++ [⟨t, sid, tp, hm⟩]) (count + 1)
              (evs ++ [.execQ q])
        | _, _, _, _ => (evs, .error ⟨adaptErrMsg⟩)
    | _, _, _, _ => (evs, .error ⟨attrErrMsg⟩)

/-- Create multiple sensor data entries at once: a non-list or empty
payload is rejected with 400; otherwise the loop runs and one COMMIT
covers every successful insert; any failure inside the loop yields 500
with nothing committed. -/
def handle_create_bulk_sensors (env : Env) (db : List Row) (payload : Payload) : HOut :=
  match decodeList payload with
  | .error e => ⟨[resp create_bulk_response 500 (.err e.msg)], [], db⟩
  | .ok data =>
    match data with
    | .arr entries =>
      if entries.isEmpty then
        ⟨[resp create_bulk_response 400 (.err "Expected a list of sensor data")], [], db⟩
      else if env.connectFail then
        ⟨[resp create_bulk_response 500 (.err connErrMsg)], [], db⟩
      else
        match bulkInsertLoop env entries 0 db 0 [.openC] with
        | (evs, .error e) => ⟨[resp create_bulk_response 500 (.err e.msg)], evs, db⟩
        | (evs, .ok (tx, count)) =>
          ⟨[resp create_bulk_response 201 (.bulkCreated count)],
           evs ++ [.commitC, .closeC], tx⟩
    | _ => ⟨[resp create_bulk_response 400 (.err "Expected a list of sensor data")], [], db⟩

/-- COALESCE(new, old): the supplied value when present, else the stored one. -/
def coalesce (new old : Option Rat) : Option Rat :=
  match new with
  | Option.some q => Option.some q
  | Option.none => old

/-- The UPDATE ... SET temperature = COALESCE(%s, temperature), humidity =
COALESCE(%s, humidity) WHERE time = %s AND sensor_id = %s statement over
the table. -/
def updateRows (tp hm : Option Rat) (t sid : Int) (rows : List Row) : List Row :=
  rows.map (fun r =>
    if r.time == t && r.sensor_id == sid then
      ⟨r.time, r.sensor_id, coalesce tp r.temperature, coalesce hm r.humidity⟩
    else r)

/-- Update sensor data by time and sensor_id: empty payload then missing
identity fields are rejected with 400; when no row matches, the
connection is closed without COMMIT and 404 is published. -/
def handle_update_sensor (env : Env) (db : List Row) (payload : Payload) : HOut :=
  match decodeObj payload with
  | .error e => ⟨[resp update_response 500 (.err e.msg)], [], db⟩
  | .ok data =>
    if !truthy data then
      ⟨[resp update_response 400 (.err "No data provided")], [], db⟩
    else
      match dictGet data "time", dictGet data "sensor_id" with
      | .ok timeV, .ok sensorV =>
        if !truthy timeV || isNull sensorV then
          ⟨[resp update_response 400 (.err "time and sensor_id are required to identify the record")], [], db⟩
        else
          match dictGet data "temperature", dictGet data "humidity" with
          | .ok tempV, .ok humV =>
            if env.connectFail then
              ⟨[resp update_response 500 (.err connErrMsg)], [], db⟩
            else
              match pyToOptReal tempV, pyToOptReal humV, pyToInt timeV, pyToInt sensorV with
              | Option.some tp, Option.some hm, Option.some t, Option.some sid =>
                if env.execFails 0 then
                  ⟨[resp update_response 500 (.err execErrMsg)],
                   [.openC, .execQ qUpdate], db⟩
                else
                  let updated := updateRows tp hm t sid db
                  match (updated.filter (fun r => r.time == t && r.sensor_id == sid)).head? with
                  | Option.none =>
                    ⟨[resp update_response 404 (.err "Record not found")],
                     [.openC, .execQ qUpdate, .closeC], db⟩
                  | Option.some r =>
                    if env.shapingFails then
                      ⟨[resp update_response 500 (.err shapeErrMsg)],
                       [.openC, .execQ qUpdate, .commitC, .closeC], updated⟩
                    else
                      ⟨[resp update_response 200 (.updated r)],
                       [.openC, .execQ qUpdate, .commitC, .closeC], updated⟩
              | _, _, _, _ => ⟨[resp update_response 500 (.err adaptErrMsg)], [.openC], db⟩
          | _, _ => ⟨[resp update_response 500 (.err attrErrMsg)], [], db⟩
      | _, _ => ⟨[resp update_response 500 (.err attrErrMsg)], [], db⟩

/-- Delete sensor data by time and sensor_id: no empty-payload stage; the
DELETE is committed before the zero-rows check, then 404 or 200. -/
def handle_delete_sensor (env : Env) (db : List Row) (payload : Payload) : HOut :=
  match decodeObj payload with
  | .error e => ⟨[resp delete_response 500 (.err e.msg)], [], db⟩
  | .ok data =>
    match dictGet data "time", dictGet data "sensor_id" with
    | .ok timeV, .ok sensorV =>
      if !truthy timeV || isNull sensorV then
        ⟨[resp delete_response 400 (.err "time and sensor_id are required")], [], db⟩
      else if env.connectFail then
        ⟨[resp delete_response 500 (.err connErrMsg)], [], db⟩
      else
        match pyToInt timeV, pyToInt sensorV with
        | Option.some t, Option.some sid =>
          if env.execFails 0 then
            ⟨[resp delete_response 500 (.err execErrMsg)],
             [.openC, .execQ qDelete], db⟩
          else
            let remaining := db.filter (fun r => !(r.time == t && r.sensor_id == sid))
            let deleted := db.length - remaining.length
            if deleted = 0 then
              ⟨[resp delete_response 404 (.err "Record not found")],
               [.openC, .execQ qDelete, .commitC, .closeC], remaining⟩
            else
              ⟨[resp delete_response 200 (.deleted deleted)],
               [.openC, .execQ qDelete, .commitC, .closeC], remaining⟩
        | _, _ => ⟨[resp delete_response 500 (.err adaptErrMsg)], [.openC], db⟩
    | _, _ => ⟨[resp delete_response 500 (.err attrErrMsg)], [], db⟩

/-- Delete all data for a specific sensor: 400 only when sensor_id is None;
always 200 with the count of deleted rows otherwise. -/
def handle_delete_sensor_by_id (env : Env) (db : List Row) (payload : Payload) : HOut :=
  match decodeObj payload with
  | .error e => ⟨[resp delete_by_id_response 500 (.err e.msg)], [], db⟩
  | .ok data =>
    match dictGet data "sensor_id" with
    | .ok sensorV =>
      if isNull sensorV then
        ⟨[resp delete_by_id_response 400 (.err "sensor_id is required")], [], db⟩
      else if env.connectFail then
        ⟨[resp delete_by_id_response 500 (.err connErrMsg)], [], db⟩
      else
        match pyToInt sensorV with
        | Option.some sid =>
          if env.execFails 0 then
            ⟨[resp delete_by_id_response 500 (.err execErrMsg)],
             [.openC, .execQ qDeleteById], db⟩
          else
            let remaining := db.filter (fun r => !(r.sensor_id == sid))
            let deleted := db.length - remaining.length
            ⟨[resp delete_by_id_response 200 (.deletedById deleted sid)],
             [.openC, .execQ qDeleteById, .commitC, .closeC], remaining⟩
        | _ => ⟨[resp delete_by_id_response 500 (.err adaptErrMsg)], [.openC], db⟩
    | _ => ⟨[resp delete_by_id_response 500 (.err attrErrMsg)], [], db⟩

/-- Get aggregated statistics for sensors: the sensor filter is applied
only when the supplied sensor_id is truthy. -/
def handle_get_stats (env : Env) (db : List Row) (payload : Payload) : HOut :=
  match decodeObj payload with
  | .error e => ⟨[resp stats_response 500 (.err e.msg)], [], db⟩
  | .ok data =>
    match dictGetD data "hours" (.num 24), dictGet data "sensor_id" with
    | .ok hoursV, .ok sensorV =>
      if env.connectFail then
        ⟨[resp stats_response 500 (.err connErrMsg)], [], db⟩
      else if truthy sensorV then
        match pyToInt sensorV, pyToInt hoursV with
        | Option.some sid, Option.some h =>
          if env.execFails 0 then
            ⟨[resp stats_response 500 (.err execErrMsg)],
             [.openC, .execQ qStatsFiltered], db⟩
          else
            let result := statsOne sid (db.filter
                (fun r => r.sensor_id == sid && inWindow env.now h r))
            if env.shapingFails then
              ⟨[resp stats_response 500 (.err shapeErrMsg)],
               [.openC, .execQ qStatsFiltered, .closeC], db⟩
            else
              ⟨[resp stats_response 200 (.stats result)],
               [.openC, .execQ qStatsFiltered, .closeC], db⟩
        | _, _ => ⟨[resp stats_response 500 (.err adaptErrMsg)], [.openC], db⟩
      else
        match pyToInt hoursV with
        | Option.some h =>
          if env.execFails 0 then
            ⟨[resp stats_response 500 (.err execErrMsg)],
             [.openC, .execQ qStatsUnfiltered], db⟩
          else
            let result := statsAll (db.filter (fun r => inWindow env.now h r))
            if env.shapingFails then
              ⟨[resp stats_response 500 (.err shapeErrMsg)],
               [.openC, .execQ qStatsUnfiltered, .closeC], db⟩
            else
              ⟨[resp stats_response 200 (.stats result)],
               [.openC, .execQ qStatsUnfiltered, .closeC], db⟩
        | _ => ⟨[resp stats_response 500 (.err adaptErrMsg)], [.openC], db⟩
    | _, _ => ⟨[resp stats_response 500 (.err attrErrMsg)], [], db⟩

/-- Get time-bucketed aggregations: the caller-supplied bucket width is
interpolated into the query text verbatim; an invalid width is a store
syntax error after the text is sent, mapped to 500. -/
def handle_time_bucket (env : Env) (db : List Row) (payload : Payload) : HOut :=
  match decodeObj payload with
  | .error e => ⟨[resp time_bucket_response 500 (.err e.msg)], [], db⟩
  | .ok data =>
    match dictGetD data "hours" (.num 24), dictGetD data "bucket" (.str "1 hour"),
          dictGet data "sensor_id" with
    | .ok hoursV, .ok bucketV, .ok sensorV =>
      let bucket := pyStr bucketV
      if env.connectFail then
        ⟨[resp time_bucket_response 500 (.err connErrMsg)], [], db⟩
      else if truthy sensorV then
        match pyToInt sensorV, pyToInt hoursV with
        | Option.some sid, Option.some h =>
          if !env.bucketValid bucket || env.execFails 0 then
            ⟨[resp time_bucket_response 500 (.err bucketErrMsg)],
             [.openC, .execQ (qTimeBucketFiltered bucket)], db⟩
          else
            let result := bucketRowsOf env bucket (db.filter
                (fun r => r.sensor_id == sid && inWindow env.now h r))
            if env.shapingFails then
              ⟨[resp time_bucket_response 500 (.err shapeErrMsg)],
               [.openC, .execQ (qTimeBucketFiltered bucket), .closeC], db⟩
            else
              ⟨[resp time_bucket_response 200 (.buckets result bucket)],
               [.openC, .execQ (qTimeBucketFiltered bucket), .closeC], db⟩
        | _, _ => ⟨[resp time_bucket_response 500 (.err adaptErrMsg)], [.openC], db⟩
      else
        match pyToInt hoursV with
        | Option.some h =>
          if !env.bucketValid bucket || env.execFails 0 then
            ⟨[resp time_bucket_response 500 (.err bucketErrMsg)],
             [.openC, .execQ (qTimeBucketUnfiltered bucket)], db⟩
          else
            let result := bucketRowsOf env bucket (db.filter
                (fun r => inWindow env.now h r))
            if env.shapingFails then
              ⟨[resp time_bucket_response 500 (.err shapeErrMsg)],
               [.openC, .execQ (qTimeBucketUnfiltered bucket), .closeC], db⟩
            else
              ⟨[resp time_bucket_response 200 (.buckets result bucket)],
               [.openC, .execQ (qTimeBucketUnfiltered bucket), .closeC], db⟩
        | _ => ⟨[resp time_bucket_response 500 (.err adaptErrMsg)], [.openC], db⟩
    | _, _, _ => ⟨[resp time_bucket_response 500 (.err attrErrMsg)], [], db⟩

-- ============== MQTT DISPATCH ==============

/-- The handlers routing dict of on_message: request topic to handler. -/
def handlerFor (topic : String) : Option (Env → List Row → Payload → HOut) :=
  if topic = health_request then Option.some handle_health_check
  else if topic = get_all_request then Option.some handle_get_all_sensors
  else if topic = get_by_id_request then Option.some handle_get_sensor_by_id
  else if topic = create_request then Option.some handle_create_sensor
  else if topic = create_bulk_request then Option.some handle_create_bulk_sensors
  else if topic = update_request then Option.some handle_update_sensor
  else if topic = delete_request then Option.some handle_delete_sensor
  else if topic = delete_by_id_request then Option.some handle_delete_sensor_by_id
  else if topic = stats_request then Option.some handle_get_stats
  else if topic = time_bucket_request then Option.some handle_time_bucket
  else Option.none

/-- Callback when a message is received: decode the payload bytes — a step
that no try/except covers, so a UnicodeDecodeError escapes the callback
before the message is logged or the topic looked up — then route to the
handler bound to the topic; an unbound topic is logged and dispatched
nowhere.  An error result models the exception escaping into the paho
loop, which re-raises it and ends the client loop thread. -/
def on_message (env : Env) (db : List Row) (topic : String) (bytes : MsgBytes) :
    Except Exc HOut :=
  match decodeUtf8 bytes with
  | .error e => .error e
  | .ok payload =>
    .ok (match handlerFor topic with
         | Option.some h => h env db payload
         | Option.none => ⟨[], [], db⟩)

/-- The ten bound request topics. -/
def requestTopics : List String :=
  [health_request, get_all_request, get_by_id_request, create_request,
   create_bulk_request, update_request, delete_request, delete_by_id_request,
   stats_request, time_bucket_request]

/-- The response topic paired with each request topic. -/
def responseTopicOf (topic : String) : String :=
  if topic = health_request then health_response
  else if topic = get_all_request then get_all_response
  else if topic = get_by_id_request then get_by_id_response
  else if topic = create_request then create_response
  else if topic = create_bulk_request then create_bulk_response
  else if topic = update_request then update_response
  else if topic = delete_request then delete_response
  else if topic = delete_by_id_request then delete_by_id_response
  else if topic = stats_request then stats_response
  else if topic = time_bucket_request then time_bucket_response
  else ""

-- ============== SUPPORTING DEFINITIONS FOR THE THEOREMS ==============

/-- An optional numeric request field: present with a number, or omitted. -/
def optRatField (k : String) : Option Rat → List (String × PyVal)
  | Option.some q => [(k, .num q)]
  | Option.none => []

/-- A create/update/delete request body identifying key (t, s), with the
optional temperature and humidity fields. -/
def keyedPayload (t s : Int) (mt mh : Option Rat) : PyVal :=
  .obj ([("time", .num (t : Rat)), ("sensor_id", .num (s : Rat))] ++
        optRatField "temperature" mt ++ optRatField "humidity" mh)

/-- A GetAll request body with sensor_id present. -/
def getAllPayloadWith (s h l : Int) : PyVal :=
  .obj [("sensor_id", .num (s : Rat)), ("hours", .num (h : Rat)), ("limit", .num (l : Rat))]

/-- A GetAll request body without sensor_id. -/
def getAllPayloadNoSensor (h l : Int) : PyVal :=
  .obj [("hours", .num (h : Rat)), ("limit", .num (l : Rat))]

/-- A Stats request body with sensor_id present. -/
def statsPayloadWith (s h : Int) : PyVal :=
  .obj [("sensor_id", .num (s : Rat)), ("hours", .num (h : Rat))]

/-- A Stats request body without sensor_id. -/
def statsPayloadNoSensor (h : Int) : PyVal :=
  .obj [("hours", .num (h : Rat))]

/-- A TimeBucket request body with sensor_id present. -/
def tbPayloadWith (s h : Int) (b : String) : PyVal :=
  .obj [("sensor_id", .num (s : Rat)), ("hours", .num (h : Rat)), ("bucket", .str b)]

/-- A TimeBucket request body without sensor_id. -/
def tbPayloadNoSensor (h : Int) (b : String) : PyVal :=
  .obj [("hours", .num (h : Rat)), ("bucket", .str b)]

/-- An environment in which no store step fails. -/
def envOk : Env := ⟨false, fun _ => false, false, 100, fun _ => true, fun _ t => t⟩

/-- An environment in which every execute call raises. -/
def envExecFail : Env := ⟨false, fun _ => true, false, 100, fun _ => true, fun _ t => t⟩

/-- The status code of the (first) envelope a handler published. -/
def statusOf (o : HOut) : Option Nat :=
  (o.pubs.map (fun p => p.status_code)).head?

/-- Scoped-connection discipline of one handler outcome: at most one
connection opened, never closed more often than opened, and on the
handler's success status exactly the one opened connection is closed. -/
def connScoped (o : HOut) (success : Nat) : Prop :=
  o.events.count Ev.openC ≤ 1 ∧
  o.events.count Ev.closeC ≤ o.events.count Ev.openC ∧
  (statusOf o = Option.some success →
    o.events.count Ev.openC = 1 ∧ o.events.count Ev.closeC = 1)

/-- An entry of a CreateBulk payload that the loop skips: a dict whose
sensor_id is absent or null. -/
def entrySkipped (e : PyVal) : Bool :=
  match e with
  | .obj fs => isNull ((lookupLast "sensor_id" fs).getD .null)
  | _ => false

/-- The head piece of the interpolated time_bucket query text (sensor form). -/
def tbFilteredPre : String := "SELECT time_bucket('"

/-- The tail piece of the interpolated time_bucket query text (sensor form). -/
def tbFilteredSuf : String :=
  "', time) AS bucket, sensor_id, AVG(temperature) as avg_temperature, AVG(humidity) as avg_humidity, COUNT(*) as readings FROM sensor_data WHERE sensor_id = %s AND time > NOW() - INTERVAL '%s hours' GROUP BY bucket, sensor_id ORDER BY bucket DESC"

/-- The head piece of the interpolated time_bucket query text (all-sensors form). -/
def tbUnfilteredPre : String := "SELECT time_bucket('"

/-- The tail piece of the interpolated time_bucket query text (all-sensors form). -/
def tbUnfilteredSuf : String :=
  "', time) AS bucket, sensor_id, AVG(temperature) as avg_temperature, AVG(humidity) as avg_humidity, COUNT(*) as readings FROM sensor_data WHERE time > NOW() - INTERVAL '%s hours' GROUP BY bucket, sensor_id ORDER BY bucket DESC, sensor_id"

-- ============== SHARED HELPER LEMMAS ==============

theorem mem_insertBy {α : Type} (le : α → α → Bool) (x a : α) (l : List α) :
    a ∈ insertBy le x l ↔ a = x ∨ a ∈ l := by
  induction l with
  | nil => simp [insertBy]
  | cons y ys ih =>
    simp only [insertBy]
    split
    · simp [List.mem_cons]
    · simp only [List.mem_cons, ih]
      tauto

theorem mem_sortBy {α : Type} (le : α → α → Bool) (a : α) (l : List α) :
    a ∈ sortBy le l ↔ a ∈ l := by
  induction l with
  | nil => simp [sortBy]
  | cons y ys ih =>
    simp only [sortBy, mem_insertBy, List.mem_cons, ih]

theorem pairwise_insertBy {α : Type} (le : α → α → Bool)
    (total : ∀ a b, le a b || le b a)
    (htrans : ∀ a b c, le a b = true → le b c = true → le a c = true)
    (x : α) (l : List α)
    (h : l.Pairwise (fun a b => le a b = true)) :
    (insertBy le x l).Pairwise (fun a b => le a b = true) := by
  induction l with
  | nil => simp [insertBy]
  | cons y ys ih =>
    simp only [insertBy]
    rcases List.pairwise_cons.mp h with ⟨hy, hys⟩
    split
    · rename_i hxy
      refine List.pairwise_cons.mpr ⟨?_, h⟩
      intro b hb
      rcases List.mem_cons.mp hb with rfl | hb'
      · exact hxy
      · exact htrans x y b hxy (hy b hb')
    · rename_i hxy
      refine List.pairwise_cons.mpr ⟨?_, ih hys⟩
      intro b hb
      rcases (mem_insertBy le x b ys).mp hb with heq | hb'
      · rw [heq]
        rcases Bool.or_eq_true_iff.mp (total x y) with hx | hyx
        · exact absurd hx hxy
        · exact hyx
      · exact hy b hb'

theorem pairwise_sortBy {α : Type} (le : α → α → Bool)
    (total : ∀ a b, le a b || le b a)
    (htrans : ∀ a b c, le a b = true → le b c = true → le a c = true)
    (l : List α) :
    (sortBy le l).Pairwise (fun a b => le a b = true) := by
  induction l with
  | nil => simp [sortBy]
  | cons y ys ih => exact pairwise_insertBy le total htrans y _ ih

theorem timeDesc_total : ∀ a b : Row, timeDesc a b || timeDesc b a := by
  intro a b
  simp only [timeDesc, Bool.or_eq_true, decide_eq_true_eq]
  omega

theorem timeDesc_trans : ∀ a b c : Row,
    timeDesc a b = true → timeDesc b c = true → timeDesc a c = true := by
  intro a b c
  simp only [timeDesc, decide_eq_true_eq]
  omega

theorem mem_sortTimeDesc (a : Row) (l : List Row) :
    a ∈ sortTimeDesc l ↔ a ∈ l := mem_sortBy timeDesc a l

theorem pairwise_sortTimeDesc (l : List Row) :
    (sortTimeDesc l).Pairwise (fun a b => b.time ≤ a.time) := by
  have h := pairwise_sortBy timeDesc timeDesc_total timeDesc_trans l
  refine h.imp ?_
  intro a b hab
  simpa [timeDesc] using hab

theorem dictGet_ok {v : PyVal} {k : String} {w : PyVal}
    (h : dictGet v k = .ok w) :
    ∃ fs, v = PyVal.obj fs ∧ w = (lookupLast k fs).getD .null := by
  cases v <;> simp only [dictGet] at h
  case obj fs => exact ⟨fs, rfl, ((Except.ok.injEq ..).mp h).symm⟩
  all_goals exact absurd h (by simp)

theorem countP_not_add_countP (p : α → Bool) (l : List α) :
    l.countP (fun e => !p e) + l.countP p = l.length := by
  induction l with
  | nil => simp
  | cons x xs ih =>
    by_cases hx : p x <;> (simp [List.countP_cons, hx]; omega)

/-- The bulk insert loop emits only query events: it neither opens nor
closes a connection of its own. -/
theorem bulkInsertLoop_evs_no_conn (env : Env) :
    ∀ (entries : List PyVal) (i : Nat) (tx : List Row) (count : Nat) (evs : List Ev),
    (bulkInsertLoop env entries i tx count evs).1.count Ev.openC = evs.count Ev.openC ∧
    (bulkInsertLoop env entries i tx count evs).1.count Ev.closeC = evs.count Ev.closeC := by
  intro entries
  induction entries with
  | nil =>
    intro i tx count evs
    exact ⟨rfl, rfl⟩
  | cons e rest ih =>
    intro i tx count evs
    simp only [bulkInsertLoop]
    repeat' (first | split | dsimp only)
    all_goals try exact ih ..
    all_goals try exact ⟨rfl, rfl⟩
    all_goals constructor
    all_goals try (rw [(ih ..).1]; simp [List.count_append, List.count_cons])
    all_goals try (rw [(ih ..).2]; simp [List.count_append, List.count_cons])
    all_goals simp [List.count_append, List.count_cons]

/-- Counts of connection events in the event list the bulk loop returns,
in either outcome, starting from the single open event of the handler. -/
theorem bulk_evs_counts {env : Env} {entries : List PyVal} {tx0 : List Row}
    {i count : Nat} {evs : List Ev} {out : Except Exc (List Row × Nat)}
    (heq : bulkInsertLoop env entries i tx0 count [Ev.openC] = (evs, out)) :
    evs.count Ev.openC = 1 ∧ evs.count Ev.closeC = 0 := by
  obtain ⟨h1, h2⟩ := bulkInsertLoop_evs_no_conn env entries i tx0 count [Ev.openC]
  rw [heq] at h1 h2
  exact ⟨by simpa using h1, by simpa using h2⟩

/-- Invariant of the bulk insert loop on its success path: every entry
lacking sensor_id is skipped, every other entry adds one row and one to
the count, and the loop emits no COMMIT event of its own. -/
theorem bulkInsertLoop_ok (env : Env) :
    ∀ (entries : List PyVal) (i : Nat) (tx : List Row) (count : Nat) (evs : List Ev)
      (evs' : List Ev) (tx' : List Row) (count' : Nat),
    bulkInsertLoop env entries i tx count evs = (evs', .ok (tx', count')) →
    count' = count + entries.countP (fun e => !entrySkipped e) ∧
    tx'.length = tx.length + entries.countP (fun e => !entrySkipped e) ∧
    evs'.count Ev.commitC = evs.count Ev.commitC := by
  intro entries
  induction entries with
  | nil =>
    intro i tx count evs evs' tx' count' h
    simp only [bulkInsertLoop, Prod.mk.injEq, Except.ok.injEq] at h
    obtain ⟨rfl, rfl, rfl⟩ := h
    simp
  | cons e rest ih =>
    intro i tx count evs evs' tx' count' h
    simp only [bulkInsertLoop] at h
    split at h
    · rename_i sensorV tempV humV timeV hsen htmp hhum htim
      obtain ⟨fs, rfl, hw⟩ := dictGet_ok hsen
      split at h
      · rename_i hskip
        have hsk : entrySkipped (PyVal.obj fs) = true := by
          simp [entrySkipped, ← hw, hskip]
        obtain ⟨hc, hl, he⟩ := ih _ _ _ _ _ _ _ h
        refine ⟨?_, ?_, he⟩ <;> simp [List.countP_cons, hsk] <;> omega
      · rename_i hskip
        have hsk : entrySkipped (PyVal.obj fs) = false := by
          simp only [entrySkipped, ← hw]
          exact Bool.of_not_eq_true hskip
        split at h
        · rename_i t sid tp hm heqm
          split at h
          · exact absurd h (by simp)
          · split at h
            · exact absurd h (by simp)
            · obtain ⟨hc, hl, he⟩ := ih _ _ _ _ _ _ _ h
              refine ⟨?_, ?_, ?_⟩
              · simp [List.countP_cons, hsk]
                omega
              · simp [List.countP_cons, hsk]
                simp [List.length_append] at hl
                omega
              · rw [he]
                simp [List.count_append]
        · exact absurd h (by simp)
    · exact absurd h (by simp)

/-- The fixed status-code taxonomy of the service. -/
def statusCodes : List Nat := [200, 201, 400, 404, 409, 500]

theorem health_pubs_single : ∀ (env : Env) (db : List Row) (p : Payload),
    ∃ c d, (handle_health_check env db p).pubs = [⟨health_response, c, d⟩] ∧
      c ∈ statusCodes := by
  intro env db p
  unfold handle_health_check
  repeat' (first | split | dsimp only)
  all_goals exact ⟨_, _, rfl, by decide⟩

theorem get_all_pubs_single : ∀ (env : Env) (db : List Row) (p : Payload),
    ∃ c d, (handle_get_all_sensors env db p).pubs = [⟨get_all_response, c, d⟩] ∧
      c ∈ statusCodes := by
  intro env db p
  unfold handle_get_all_sensors
  repeat' (first | split | dsimp only)
  all_goals exact ⟨_, _, rfl, by decide⟩

theorem get_by_id_pubs_single : ∀ (env : Env) (db : List Row) (p : Payload),
    ∃ c d, (handle_get_sensor_by_id env db p).pubs = [⟨get_by_id_response, c, d⟩] ∧
      c ∈ statusCodes := by
  intro env db p
  unfold handle_get_sensor_by_id
  repeat' (first | split | dsimp only)
  all_goals exact ⟨_, _, rfl, by decide⟩

theorem create_pubs_single : ∀ (env : Env) (db : List Row) (p : Payload),
    ∃ c d, (handle_create_sensor env db p).pubs = [⟨create_response, c, d⟩] ∧
      c ∈ statusCodes := by
  intro env db p
  unfold handle_create_sensor
  repeat' (first | split | dsimp only)
  all_goals exact ⟨_, _, rfl, by decide⟩

theorem create_bulk_pubs_single : ∀ (env : Env) (db : List Row) (p : Payload),
    ∃ c d, (handle_create_bulk_sensors env db p).pubs = [⟨create_bulk_response, c, d⟩] ∧
      c ∈ statusCodes := by
  intro env db p
  unfold handle_create_bulk_sensors
  repeat' (first | split | dsimp only)
  all_goals exact ⟨_, _, rfl, by decide⟩

theorem update_pubs_single : ∀ (env : Env) (db : List Row) (p : Payload),
    ∃ c d, (handle_update_sensor env db p).pubs = [⟨update_response, c, d⟩] ∧
      c ∈ statusCodes := by
  intro env db p
  unfold handle_update_sensor
  repeat' (first | split | dsimp only)
  all_goals exact ⟨_, _, rfl, by decide⟩

theorem delete_pubs_single : ∀ (env : Env) (db : List Row) (p : Payload),
    ∃ c d, (handle_delete_sensor env db p).pubs = [⟨delete_response, c, d⟩] ∧
      c ∈ statusCodes := by
  intro env db p
  unfold handle_delete_sensor
  repeat' (first | split | dsimp only)
  all_goals exact ⟨_, _, rfl, by decide⟩

theorem delete_by_id_pubs_single : ∀ (env : Env) (db : List Row) (p : Payload),
    ∃ c d, (handle_delete_sensor_by_id env db p).pubs = [⟨delete_by_id_response, c, d⟩] ∧
      c ∈ statusCodes := by
  intro env db p
  unfold handle_delete_sensor_by_id
  repeat' (first | split | dsimp only)
  all_goals exact ⟨_, _, rfl, by decide⟩

theorem stats_pubs_single : ∀ (env : Env) (db : List Row) (p : Payload),
    ∃ c d, (handle_get_stats env db p).pubs = [⟨stats_response, c, d⟩] ∧
      c ∈ statusCodes := by
  intro env db p
  unfold handle_get_stats
  repeat' (first | split | dsimp only)
  all_goals exact ⟨_, _, rfl, by decide⟩

theorem time_bucket_pubs_single : ∀ (env : Env) (db : List Row) (p : Payload),
    ∃ c d, (handle_time_bucket env db p).pubs = [⟨time_bucket_response, c, d⟩] ∧
      c ∈ statusCodes := by
  intro env db p
  unfold handle_time_bucket
  repeat' (first | split | dsimp only)
  all_goals exact ⟨_, _, rfl, by decide⟩

-- ============== CLAIM C1 ==============

/-- C1 counterexample: the claim is false — the decode('utf-8') of the
payload bytes in on_message runs outside every try/except, so an inbound
request on a bound topic whose payload is not valid UTF-8 publishes no
Response Envelope at all and the decoding exception escapes to the
transport layer. -/
theorem c1_counterexample_nonutf8_escapes :
    create_request ∈ requestTopics ∧
    on_message envOk [] create_request
        (.nonUtf8 "invalid start byte") =
      Except.error ⟨"invalid start byte"⟩ :=
  ⟨by decide, rfl⟩

/-- C1 amended: for every inbound request message on a bound request topic
whose payload bytes are empty or valid UTF-8, the dispatched handler
publishes exactly one Response Envelope on that operation's response
topic, whatever the decoded payload, the table contents and the injected
json/store/shaping failures, with a status code from the fixed taxonomy —
every such failure is caught inside the handler; a payload that is not
valid UTF-8, however, raises in the callback before dispatch and no
envelope is published. -/
theorem c1_one_envelope_per_decodable_request :
    ∀ (env : Env) (db : List Row) (topic : String) (bytes : MsgBytes),
    topic ∈ requestTopics →
    ((∀ payload, decodeUtf8 bytes = Except.ok payload →
        ∃ c d out, on_message env db topic bytes = Except.ok out ∧
          out.pubs = [⟨responseTopicOf topic, c, d⟩] ∧ c ∈ statusCodes) ∧
     (∀ m, bytes = MsgBytes.nonUtf8 m →
        on_message env db topic bytes = Except.error ⟨m⟩)) := by
  intro env db topic bytes hmem
  constructor
  · intro payload hdec
    simp only [requestTopics, List.mem_cons, List.not_mem_nil, or_false] at hmem
    rcases hmem with rfl | rfl | rfl | rfl | rfl | rfl | rfl | rfl | rfl | rfl
    all_goals simp only [on_message, hdec, handlerFor, responseTopicOf, reduceIte]
    · obtain ⟨c, d, hp, hc⟩ := health_pubs_single env db payload
      exact ⟨c, d, _, rfl, hp, hc⟩
    · obtain ⟨c, d, hp, hc⟩ := get_all_pubs_single env db payload
      exact ⟨c, d, _, rfl, hp, hc⟩
    · obtain ⟨c, d, hp, hc⟩ := get_by_id_pubs_single env db payload
      exact ⟨c, d, _, rfl, hp, hc⟩
    · obtain ⟨c, d, hp, hc⟩ := create_pubs_single env db payload
      exact ⟨c, d, _, rfl, hp, hc⟩
    · obtain ⟨c, d, hp, hc⟩ := create_bulk_pubs_single env db payload
      exact ⟨c, d, _, rfl, hp, hc⟩
    · obtain ⟨c, d, hp, hc⟩ := update_pubs_single env db payload
      exact ⟨c, d, _, rfl, hp, hc⟩
    · obtain ⟨c, d, hp, hc⟩ := delete_pubs_single env db payload
      exact ⟨c, d, _, rfl, hp, hc⟩
    · obtain ⟨c, d, hp, hc⟩ := delete_by_id_pubs_single env db payload
      exact ⟨c, d, _, rfl, hp, hc⟩
    · obtain ⟨c, d, hp, hc⟩ := stats_pubs_single env db payload
      exact ⟨c, d, _, rfl, hp, hc⟩
    · obtain ⟨c, d, hp, hc⟩ := time_bucket_pubs_single env db payload
      exact ⟨c, d, _, rfl, hp, hc⟩
  · intro m hb
    subst hb
    rfl

/-- C1 witness: the amended theorem applied at a concrete bound topic and
a decodable (empty) payload. -/
theorem c1_one_envelope_per_decodable_request_witness :
    create_request ∈ requestTopics ∧
    decodeUtf8 MsgBytes.empty = Except.ok Payload.empty ∧
    ∃ c d out, on_message envOk [] create_request MsgBytes.empty = Except.ok out ∧
      out.pubs = [⟨responseTopicOf create_request, c, d⟩] ∧ c ∈ statusCodes :=
  ⟨by decide, rfl,
   (c1_one_envelope_per_decodable_request envOk [] create_request MsgBytes.empty
      (by decide)).1 Payload.empty rfl⟩

-- ============== CLAIM C8 ==============

/-- C8 counterexample: the claim is false — the payload decode runs before
the log line and the topic lookup, so an inbound message on an unbound
topic whose payload bytes are not valid UTF-8 is never logged: the
UnicodeDecodeError escapes the callback (and paho re-raises it, ending
the client loop thread) instead of the message being dropped. -/
theorem c8_counterexample_nonutf8_raises :
    "sensors/unknown/request" ∉ requestTopics ∧
    on_message envOk [] "sensors/unknown/request"
        (.nonUtf8 "invalid start byte") =
      Except.error ⟨"invalid start byte"⟩ :=
  ⟨by decide, rfl⟩

/-- C8 amended: an inbound message on a topic that is not one of the ten
bound request topics, whose payload bytes are empty or valid UTF-8, is
logged and dropped — no handler dispatched, nothing published on any
topic, no store event, table unchanged, callback returns normally; when
the payload bytes are not valid UTF-8, the callback instead raises before
the topic lookup, still publishing nothing and touching no store. -/
theorem c8_unbound_topic_dropped_amended :
    ∀ (env : Env) (db : List Row) (topic : String) (bytes : MsgBytes),
    topic ∉ requestTopics →
    ((∀ payload, decodeUtf8 bytes = Except.ok payload →
        on_message env db topic bytes = Except.ok ⟨[], [], db⟩) ∧
     (∀ m, bytes = MsgBytes.nonUtf8 m →
        on_message env db topic bytes = Except.error ⟨m⟩)) := by
  intro env db topic bytes hmem
  simp only [requestTopics, List.mem_cons, List.not_mem_nil, or_false, not_or] at hmem
  obtain ⟨h1, h2, h3, h4, h5, h6, h7, h8, h9, h10⟩ := hmem
  constructor
  · intro payload hdec
    simp [on_message, hdec, handlerFor, h1, h2, h3, h4, h5, h6, h7, h8, h9, h10]
  · intro m hb
    subst hb
    rfl

/-- C8 witness: the amended theorem applied at a concrete unbound topic
and a decodable (empty) payload. -/
theorem c8_unbound_topic_dropped_amended_witness :
    "sensors/unknown/request" ∉ requestTopics ∧
    decodeUtf8 MsgBytes.empty = Except.ok Payload.empty ∧
    on_message envOk [⟨5, 1, Option.none, Option.none⟩] "sensors/unknown/request"
        MsgBytes.empty =
      Except.ok ⟨[], [], [⟨5, 1, Option.none, Option.none⟩]⟩ :=
  ⟨by decide, rfl,
   (c8_unbound_topic_dropped_amended envOk [⟨5, 1, Option.none, Option.none⟩]
      "sensors/unknown/request" MsgBytes.empty (by decide)).1 Payload.empty rfl⟩

-- Conversion helper lemmas shared by the remaining claims.

theorem pyToInt_intCast (n : Int) : pyToInt (.num (n : Rat)) = Option.some n := by
  simp [pyToInt]

theorem truthy_intCast_true {n : Int} (h : n ≠ 0) :
    truthy (.num (n : Rat)) = true := by
  have h' : (n : Rat) ≠ 0 := Int.cast_ne_zero.mpr h
  simp [truthy, bne_iff_ne, h']

-- ============== CLAIM C9 ==============

/-- C9: the caller-supplied bucket string of a TimeBucket request (default
"1 hour") is substituted verbatim into the text of the bucketing query:
for every string b, the query text is literally the fixed head, then b
character for character, then the fixed tail, and the handler sends
exactly that text to the store (never a bound parameter) in both the
sensor-filtered and the all-sensors form. -/
theorem c9_bucket_substituted_verbatim :
    ∀ (env : Env) (db : List Row) (b : String) (s h : Int),
    env.connectFail = false →
    (qTimeBucketFiltered b = tbFilteredPre ++ b ++ tbFilteredSuf ∧
     qTimeBucketUnfiltered b = tbUnfilteredPre ++ b ++ tbUnfilteredSuf) ∧
    (s ≠ 0 →
      Ev.execQ (tbFilteredPre ++ b ++ tbFilteredSuf) ∈
        (handle_time_bucket env db (.parsed (tbPayloadWith s h b))).events) ∧
    (Ev.execQ (tbUnfilteredPre ++ b ++ tbUnfilteredSuf) ∈
        (handle_time_bucket env db (.parsed (tbPayloadNoSensor h b))).events) := by
  intro env db b s h hconn
  refine ⟨⟨rfl, rfl⟩, ?_, ?_⟩
  · intro hs
    have hq : tbFilteredPre ++ b ++ tbFilteredSuf = qTimeBucketFiltered b := rfl
    rw [hq]
    simp [handle_time_bucket, tbPayloadWith, decodeObj, dictGet, dictGetD,
      lookupLast, pyStr, hconn, truthy_intCast_true hs, pyToInt_intCast]
    split
    · simp
    · split <;> simp
  · have hq : tbUnfilteredPre ++ b ++ tbUnfilteredSuf = qTimeBucketUnfiltered b := rfl
    rw [hq]
    simp [handle_time_bucket, tbPayloadNoSensor, decodeObj, dictGet, dictGetD,
      lookupLast, pyStr, hconn, truthy, pyToInt_intCast]
    split
    · simp
    · split <;> simp

/-- C9 witness: the theorem applied at a concrete injection-shaped bucket
string, a concrete sensor id and window. -/
theorem c9_bucket_substituted_verbatim_witness :
    envOk.connectFail = false ∧
    (1 : Int) ≠ 0 ∧
    Ev.execQ (tbFilteredPre ++ "1 hour); DROP TABLE sensor_data; --" ++ tbFilteredSuf) ∈
      (handle_time_bucket envOk []
        (.parsed (tbPayloadWith 1 24 "1 hour); DROP TABLE sensor_data; --"))).events :=
  ⟨rfl, by decide,
   ((c9_bucket_substituted_verbatim envOk [] "1 hour); DROP TABLE sensor_data; --" 1 24
      rfl).2.1) (by decide)⟩

-- ============== CLAIM C10 ==============

/-- C10: a request field sensor_id equal to 0 is falsy in Python, so
GetAll, Stats and TimeBucket take the unfiltered branch — their outcome is
identical to the same request without sensor_id — whereas GetById tests
`sensor_id is None` and therefore does apply the filter with 0: it
returns only rows of sensor 0 (within the window, 200, connection
closed, table unchanged). -/
theorem c10_sensor_zero_branches :
    ∀ (env : Env) (db : List Row) (h l : Int) (b : String),
    (handle_get_all_sensors env db (.parsed (getAllPayloadWith 0 h l)) =
       handle_get_all_sensors env db (.parsed (getAllPayloadNoSensor h l))) ∧
    (handle_get_stats env db (.parsed (statsPayloadWith 0 h)) =
       handle_get_stats env db (.parsed (statsPayloadNoSensor h))) ∧
    (handle_time_bucket env db (.parsed (tbPayloadWith 0 h b)) =
       handle_time_bucket env db (.parsed (tbPayloadNoSensor h b))) ∧
    (env.connectFail = false → env.execFails 0 = false → env.shapingFails = false →
      ∃ R, handle_get_sensor_by_id env db
          (.parsed (.obj [("sensor_id", .num ((0 : Int) : Rat)), ("hours", .num (h : Rat))])) =
          ⟨[resp get_by_id_response 200 (.rows R R.length)],
           [.openC, .execQ qGetById, .closeC], db⟩ ∧
        ∀ r ∈ R, r.sensor_id = 0 ∧ env.now - h < r.time) := by
  intro env db h l b
  refine ⟨rfl, rfl, rfl, ?_⟩
  intro hconn hexec hshape
  refine ⟨sortTimeDesc (db.filter (fun r => r.sensor_id == 0 && inWindow env.now h r)), ?_, ?_⟩
  · simp [handle_get_sensor_by_id, decodeObj, dictGet, dictGetD, lookupLast,
      isNull, hconn, pyToInt_intCast, pyToInt, hexec, hshape]
  · intro r hr
    have hr' := (mem_sortTimeDesc r _).mp hr
    have := List.mem_filter.mp hr'
    have hb := this.2
    simp only [Bool.and_eq_true, beq_iff_eq, inWindow, decide_eq_true_eq] at hb
    exact hb

/-- C10 witness: the theorem applied at a concrete environment, table and
request values, with every hypothesis discharged. -/
theorem c10_sensor_zero_branches_witness :
    envOk.connectFail = false ∧ envOk.execFails 0 = false ∧ envOk.shapingFails = false ∧
    ∃ R, handle_get_sensor_by_id envOk [⟨99, 0, Option.none, Option.none⟩]
        (.parsed (.obj [("sensor_id", .num ((0 : Int) : Rat)), ("hours", .num ((24 : Int) : Rat))])) =
        ⟨[resp get_by_id_response 200 (.rows R R.length)],
         [.openC, .execQ qGetById, .closeC], [⟨99, 0, Option.none, Option.none⟩]⟩ ∧
      ∀ r ∈ R, r.sensor_id = 0 ∧ envOk.now - 24 < r.time :=
  ⟨rfl, rfl, rfl,
   (c10_sensor_zero_branches envOk [⟨99, 0, Option.none, Option.none⟩] 24 100 "1 hour").2.2.2
     rfl rfl rfl⟩

-- ============== CLAIM C2 ==============

/-- C2 counterexample: the claim is false for Delete, DeleteById and
CreateBulk — an empty payload on those operations does not produce the
"No data provided" envelope the claim requires as the first validation
stage: Delete answers with its identity-field message directly, DeleteById
with "sensor_id is required", and CreateBulk with its list-shape message. -/
theorem c2_counterexample_empty_payload_messages :
    (handle_delete_sensor envOk [] Payload.empty).pubs =
      [⟨delete_response, 400, .err "time and sensor_id are required"⟩] ∧
    (handle_delete_sensor_by_id envOk [] Payload.empty).pubs =
      [⟨delete_by_id_response, 400, .err "sensor_id is required"⟩] ∧
    (handle_create_bulk_sensors envOk [] Payload.empty).pubs =
      [⟨create_bulk_response, 400, .err "Expected a list of sensor data"⟩] ∧
    RData.err "time and sensor_id are required" ≠ RData.err "No data provided" :=
  ⟨rfl, rfl, rfl, by decide⟩

/-- C2 amended: validation precedes any store access in all five
body-taking operations, in this order — Create and Update first reject an
empty payload with 400 "No data provided" and then a missing identity
field with a field-specific 400; Delete, DeleteById and CreateBulk have no
"No data provided" stage and go directly to their own 400 check (identity
fields, sensor_id, list shape respectively).  Every such rejection
publishes exactly that envelope, touches no store connection (no events)
and leaves the table unchanged. -/
theorem c2_validation_order_amended :
    ∀ (env : Env) (db : List Row),
    (handle_create_sensor env db Payload.empty =
       ⟨[resp create_response 400 (.err "No data provided")], [], db⟩) ∧
    (∀ fs, truthy (.obj fs) = true →
       isNull ((lookupLast "sensor_id" fs).getD .null) = true →
       handle_create_sensor env db (.parsed (.obj fs)) =
         ⟨[resp create_response 400 (.err "sensor_id is required")], [], db⟩) ∧
    (handle_update_sensor env db Payload.empty =
       ⟨[resp update_response 400 (.err "No data provided")], [], db⟩) ∧
    (∀ fs, truthy (.obj fs) = true →
       (!truthy ((lookupLast "time" fs).getD .null)
         || isNull ((lookupLast "sensor_id" fs).getD .null)) = true →
       handle_update_sensor env db (.parsed (.obj fs)) =
         ⟨[resp update_response 400
             (.err "time and sensor_id are required to identify the record")], [], db⟩) ∧
    (handle_delete_sensor env db Payload.empty =
       ⟨[resp delete_response 400 (.err "time and sensor_id are required")], [], db⟩) ∧
    (∀ fs, (!truthy ((lookupLast "time" fs).getD .null)
         || isNull ((lookupLast "sensor_id" fs).getD .null)) = true →
       handle_delete_sensor env db (.parsed (.obj fs)) =
         ⟨[resp delete_response 400 (.err "time and sensor_id are required")], [], db⟩) ∧
    (handle_delete_sensor_by_id env db Payload.empty =
       ⟨[resp delete_by_id_response 400 (.err "sensor_id is required")], [], db⟩) ∧
    (∀ fs, isNull ((lookupLast "sensor_id" fs).getD .null) = true →
       handle_delete_sensor_by_id env db (.parsed (.obj fs)) =
         ⟨[resp delete_by_id_response 400 (.err "sensor_id is required")], [], db⟩) ∧
    (handle_create_bulk_sensors env db Payload.empty =
       ⟨[resp create_bulk_response 400 (.err "Expected a list of sensor data")], [], db⟩) := by
  intro env db
  refine ⟨rfl, ?_, rfl, ?_, rfl, ?_, rfl, ?_, rfl⟩
  · intro fs ht hn
    simp [handle_create_sensor, decodeObj, dictGet, ht, hn]
  · intro fs ht hid
    simp only [handle_update_sensor, decodeObj, dictGet, ht, hid, Bool.not_true,
      Bool.false_eq_true, if_false, if_true]
  · intro fs hid
    simp only [handle_delete_sensor, decodeObj, dictGet, hid, if_true]
  · intro fs hn
    simp [handle_delete_sensor_by_id, decodeObj, dictGet, hn]

/-- C2 witness: the amended theorem applied at concrete inputs, with the
truthiness and missing-field hypotheses discharged by evaluation. -/
theorem c2_validation_order_amended_witness :
    truthy (.obj [("temperature", .num 25)]) = true ∧
    isNull ((lookupLast "sensor_id" [("temperature", .num 25)]).getD .null) = true ∧
    handle_create_sensor envOk [] (.parsed (.obj [("temperature", .num 25)])) =
      ⟨[resp create_response 400 (.err "sensor_id is required")], [], []⟩ :=
  ⟨by decide, by decide,
   (c2_validation_order_amended envOk []).2.1 [("temperature", .num 25)]
     (by decide) (by decide)⟩

-- ============== CLAIM C5 ==============

/-- C5: a Create request whose (time, sensor_id) key already has a row in
the table is answered with 409 "Duplicate entry for this time and
sensor_id"; the table is returned unchanged (the previously stored row is
not overwritten) and the trace carries no COMMIT — the IntegrityError is
raised by the execute step, before any commit. -/
theorem c5_duplicate_create_409_unchanged :
    ∀ (env : Env) (db : List Row) (t s : Int) (mt mh : Option Rat),
    env.connectFail = false → env.execFails 0 = false → t ≠ 0 →
    (∃ r ∈ db, r.time = t ∧ r.sensor_id = s) →
    handle_create_sensor env db (.parsed (keyedPayload t s mt mh)) =
      ⟨[resp create_response 409 (.err "Duplicate entry for this time and sensor_id")],
       [.openC, .execQ qInsertWithTime], db⟩ := by
  intro env db t s mt mh hconn hexec ht hdup
  have hdup' : db.any (fun r => r.time == t && r.sensor_id == s) = true := by
    rcases hdup with ⟨r, hrmem, hrt, hrs⟩
    rw [List.any_eq_true]
    exact ⟨r, hrmem, by simp [hrt, hrs]⟩
  cases mt <;> cases mh <;>
    (simp [handle_create_sensor, keyedPayload, optRatField, decodeObj, dictGet,
       lookupLast, isNull, truthy, truthy_intCast_true ht, hconn, hexec,
       pyToInt_intCast, pyToOptReal, hdup']
     intro h0
     exact absurd h0 ht)

/-- C5 witness: the theorem applied at a concrete table already holding
the key (5, 1), with every hypothesis discharged. -/
theorem c5_duplicate_create_409_unchanged_witness :
    envOk.connectFail = false ∧ envOk.execFails 0 = false ∧ (5 : Int) ≠ 0 ∧
    (∃ r ∈ [(⟨5, 1, Option.some 20, Option.none⟩ : Row)], r.time = 5 ∧ r.sensor_id = 1) ∧
    handle_create_sensor envOk [⟨5, 1, Option.some 20, Option.none⟩]
        (.parsed (keyedPayload 5 1 (Option.some 99) Option.none)) =
      ⟨[resp create_response 409 (.err "Duplicate entry for this time and sensor_id")],
       [.openC, .execQ qInsertWithTime], [⟨5, 1, Option.some 20, Option.none⟩]⟩ :=
  ⟨rfl, rfl, by decide, ⟨⟨5, 1, Option.some 20, Option.none⟩, by simp, rfl, rfl⟩,
   c5_duplicate_create_409_unchanged envOk [⟨5, 1, Option.some 20, Option.none⟩] 5 1
     (Option.some 99) Option.none rfl rfl (by decide)
     ⟨⟨5, 1, Option.some 20, Option.none⟩, by simp, rfl, rfl⟩⟩

-- ============== CLAIM C4 ==============

theorem truthy_obj_cons (x : String × PyVal) (fs : List (String × PyVal)) :
    truthy (.obj (x :: fs)) = true := rfl

theorem find?_eq_some_of_filter_cons {α : Type} {p : α → Bool} {l : List α}
    {x : α} {xs : List α} (hx : l.filter p = x :: xs) :
    l.find? p = Option.some x := by
  induction l with
  | nil => simp at hx
  | cons y ys ih =>
    by_cases hy : p y = true
    · rw [List.filter_cons_of_pos hy] at hx
      rw [List.find?_cons_of_pos _ hy]
      exact congrArg Option.some (List.cons.injEq .. ▸ hx).1
    · rw [List.filter_cons_of_neg (by simpa using hy)] at hx
      rw [List.find?_cons_of_neg _ hy]
      exact ih hx

theorem find?_eq_none_of_filter_nil {α : Type} {p : α → Bool} {l : List α}
    (h : l.filter p = []) :
    l.find? p = Option.none := by
  induction l with
  | nil => rfl
  | cons y ys ih =>
    by_cases hy : p y = true
    · rw [List.filter_cons_of_pos hy] at h
      simp at h
    · rw [List.filter_cons_of_neg (by simpa using hy)] at h
      rw [List.find?_cons_of_neg _ hy]
      exact ih h

/-- The UPDATE's boolean key test composed with the coalescing rewrite is
the key test itself: the rewrite preserves time and sensor_id. -/
theorem find_key_comp (tp hm : Option Rat) (t s : Int) (db : List Row) :
    List.find? ((fun r : Row => r.time == t && r.sensor_id == s) ∘ fun r =>
        if r.time = t ∧ r.sensor_id = s then
          ⟨r.time, r.sensor_id, coalesce tp r.temperature, coalesce hm r.humidity⟩
        else r) db =
    List.find? (fun r : Row => r.time == t && r.sensor_id == s) db := by
  congr 1
  funext r
  by_cases hk : r.time = t ∧ r.sensor_id = s <;> simp [hk, Function.comp]

/-- The boolean key test of the UPDATE statement agrees with the
propositional one, so updateRows is the pointwise coalescing map. -/
theorem updateRows_eq_map (tp hm : Option Rat) (t s : Int) (db : List Row) :
    updateRows tp hm t s db = db.map (fun r =>
      if r.time = t ∧ r.sensor_id = s then
        ⟨r.time, r.sensor_id, coalesce tp r.temperature, coalesce hm r.humidity⟩
      else r) := by
  unfold updateRows
  refine List.map_congr_left ?_
  intro r _
  by_cases hk : r.time = t ∧ r.sensor_id = s
  · have hb : (r.time == t && r.sensor_id == s) = true := by
      simp [Bool.and_eq_true, beq_iff_eq, hk.1, hk.2]
    simp [hb, hk]
  · have hb : (r.time == t && r.sensor_id == s) = false := by
      rcases not_and_or.mp hk with h | h <;> simp [Bool.and_eq_false_iff, beq_eq_false_iff_ne, h]
    simp [hb, hk]

/-- C4: an Update identifying an existing (time, sensor_id) row answers
200 and commits a table in which exactly the matching rows are rewritten —
each supplied field is replaced and each omitted field keeps its stored
value (COALESCE), the key fields and all other rows are untouched; an
Update matching no row answers 404 "Record not found", the table is
returned unchanged and the trace closes the connection without COMMIT. -/
theorem c4_update_coalesce_and_404 :
    ∀ (env : Env) (db : List Row) (t s : Int) (mt mh : Option Rat),
    env.connectFail = false → env.execFails 0 = false → env.shapingFails = false →
    t ≠ 0 →
    ((∃ r ∈ db, r.time = t ∧ r.sensor_id = s) →
       ∃ r0, handle_update_sensor env db (.parsed (keyedPayload t s mt mh)) =
         ⟨[resp update_response 200 (.updated r0)],
          [.openC, .execQ qUpdate, .commitC, .closeC],
          db.map (fun r => if r.time = t ∧ r.sensor_id = s then
              ⟨r.time, r.sensor_id, coalesce mt r.temperature, coalesce mh r.humidity⟩
            else r)⟩) ∧
    ((¬ ∃ r ∈ db, r.time = t ∧ r.sensor_id = s) →
       handle_update_sensor env db (.parsed (keyedPayload t s mt mh)) =
         ⟨[resp update_response 404 (.err "Record not found")],
          [.openC, .execQ qUpdate, .closeC], db⟩) := by
  intro env db t s mt mh hconn hexec hshape ht
  constructor
  · intro hmatch
    obtain ⟨r, hrmem, hrt, hrs⟩ := hmatch
    have hfil : db.filter (fun r => r.time == t && r.sensor_id == s) ≠ [] := by
      intro hnil
      have := List.filter_eq_nil_iff.mp hnil r hrmem
      simp [hrt, hrs] at this
    obtain ⟨x, xs, hx⟩ := List.exists_cons_of_ne_nil hfil
    have hfind : List.find? (fun r : Row => r.time == t && r.sensor_id == s) db =
        Option.some x := find?_eq_some_of_filter_cons hx
    have hxk : x.time = t ∧ x.sensor_id = s := by
      have hxmem : x ∈ db.filter (fun r => r.time == t && r.sensor_id == s) := by
        rw [hx]
        exact List.mem_cons_self x xs
      have := (List.mem_filter.mp hxmem).2
      simpa [Bool.and_eq_true, beq_iff_eq] using this
    refine ⟨⟨x.time, x.sensor_id, coalesce mt x.temperature, coalesce mh x.humidity⟩, ?_⟩
    cases mt <;> cases mh <;>
      simp [handle_update_sensor, keyedPayload, optRatField, decodeObj, dictGet,
        lookupLast, isNull, truthy_obj_cons, truthy_intCast_true ht, hconn, hexec,
        hshape, pyToInt_intCast, pyToOptReal, updateRows_eq_map, find_key_comp,
        hfind, hxk]
  · intro hnone
    have hfil : db.filter (fun r => r.time == t && r.sensor_id == s) = [] := by
      rw [List.filter_eq_nil_iff]
      intro r hrmem hp
      refine hnone ⟨r, hrmem, ?_⟩
      simpa [Bool.and_eq_true, beq_iff_eq] using hp
    have hfind : List.find? (fun r : Row => r.time == t && r.sensor_id == s) db =
        Option.none := find?_eq_none_of_filter_nil hfil
    cases mt <;> cases mh <;>
      simp [handle_update_sensor, keyedPayload, optRatField, decodeObj, dictGet,
        lookupLast, isNull, truthy_obj_cons, truthy_intCast_true ht, hconn, hexec,
        hshape, pyToInt_intCast, pyToOptReal, updateRows_eq_map, find_key_comp,
        hfind]

/-- C4 witness: the theorem applied at a concrete table — updating only
temperature of the row keyed (5, 1) answers 200 and keeps the stored
humidity; updating the absent key (6, 1) answers 404 and changes nothing. -/
theorem c4_update_coalesce_and_404_witness :
    (∃ r ∈ [(⟨5, 1, Option.some 20, Option.some 50⟩ : Row)], r.time = 5 ∧ r.sensor_id = 1) ∧
    (∃ r0, handle_update_sensor envOk [⟨5, 1, Option.some 20, Option.some 50⟩]
        (.parsed (keyedPayload 5 1 (Option.some 25) Option.none)) =
      ⟨[resp update_response 200 (.updated r0)],
       [.openC, .execQ qUpdate, .commitC, .closeC],
       [(⟨5, 1, Option.some 20, Option.some 50⟩ : Row)].map
         (fun r => if r.time = 5 ∧ r.sensor_id = 1 then
             ⟨r.time, r.sensor_id, coalesce (Option.some 25) r.temperature,
              coalesce Option.none r.humidity⟩
           else r)⟩) ∧
    (¬ ∃ r ∈ [(⟨5, 1, Option.some 20, Option.some 50⟩ : Row)], r.time = 6 ∧ r.sensor_id = 1) ∧
    handle_update_sensor envOk [⟨5, 1, Option.some 20, Option.some 50⟩]
        (.parsed (keyedPayload 6 1 (Option.some 25) Option.none)) =
      ⟨[resp update_response 404 (.err "Record not found")],
       [.openC, .execQ qUpdate, .closeC], [⟨5, 1, Option.some 20, Option.some 50⟩]⟩ :=
  ⟨⟨⟨5, 1, Option.some 20, Option.some 50⟩, by simp, rfl, rfl⟩,
   (c4_update_coalesce_and_404 envOk [⟨5, 1, Option.some 20, Option.some 50⟩] 5 1
      (Option.some 25) Option.none rfl rfl rfl (by decide)).1
     ⟨⟨5, 1, Option.some 20, Option.some 50⟩, by simp, rfl, rfl⟩,
   by decide,
   (c4_update_coalesce_and_404 envOk [⟨5, 1, Option.some 20, Option.some 50⟩] 6 1
      (Option.some 25) Option.none rfl rfl rfl (by decide)).2 (by decide)⟩

-- ============== CLAIM C6 ==============

/-- C6 counterexample: the claim is false in its limit clause — the LIMIT
parameter is bound in both branches of GetAll, so a sensor-filtered query
is truncated too: with two rows of sensor 1 inside the window and limit 1,
the sensor-filtered GetAll returns one row although two match the filter. -/
theorem c6_counterexample_limit_on_filtered :
    (handle_get_all_sensors envOk
        [⟨99, 1, Option.none, Option.none⟩, ⟨98, 1, Option.none, Option.none⟩]
        (.parsed (.obj [("sensor_id", .num 1), ("limit", .num 1)]))).pubs =
      [⟨get_all_response, 200, .rows [⟨99, 1, Option.none, Option.none⟩] 1⟩] ∧
    ([⟨99, 1, Option.none, Option.none⟩, ⟨98, 1, Option.none, Option.none⟩] : List Row).filter
        (fun r => r.sensor_id == 1 && inWindow envOk.now 24 r) =
      [⟨99, 1, Option.none, Option.none⟩, ⟨98, 1, Option.none, Option.none⟩] :=
  ⟨rfl, rfl⟩

/-- C6 amended: every GetAll result filters to time inside the NOW() minus
hours window, filters on sensor_id equality exactly when a truthy
sensor_id is given, is ordered newest-first, and the limit parameter
truncates the result in BOTH forms — the sensor-filtered GetAll is
limited as well (the un-limited sensor query of the service is GetById,
not GetAll). -/
theorem c6_range_query_amended :
    ∀ (env : Env) (db : List Row) (s h l : Int),
    env.connectFail = false → env.execFails 0 = false → env.shapingFails = false →
    s ≠ 0 → 0 ≤ l →
    (∃ R, handle_get_all_sensors env db (.parsed (getAllPayloadWith s h l)) =
        ⟨[resp get_all_response 200 (.rows R R.length)],
         [.openC, .execQ qGetAllFiltered, .closeC], db⟩ ∧
      (∀ r ∈ R, r.sensor_id = s ∧ env.now - h < r.time) ∧
      R.Pairwise (fun a b => b.time ≤ a.time) ∧
      R.length ≤ l.toNat) ∧
    (∃ R, handle_get_all_sensors env db (.parsed (getAllPayloadNoSensor h l)) =
        ⟨[resp get_all_response 200 (.rows R R.length)],
         [.openC, .execQ qGetAllUnfiltered, .closeC], db⟩ ∧
      (∀ r ∈ R, env.now - h < r.time) ∧
      R.Pairwise (fun a b => b.time ≤ a.time) ∧
      R.length ≤ l.toNat) := by
  intro env db s h l hconn hexec hshape hs hl0
  have hnl : ¬ (l < 0) := not_lt.mpr hl0
  constructor
  · refine ⟨(sortTimeDesc (db.filter
        (fun r => r.sensor_id == s && inWindow env.now h r))).take l.toNat, ?_, ?_, ?_, ?_⟩
    · simp [handle_get_all_sensors, getAllPayloadWith, decodeObj, dictGet, dictGetD,
        lookupLast, hconn, truthy_intCast_true hs, pyToInt_intCast, hexec, hshape, hnl]
    · intro r hr
      have h1 := List.mem_of_mem_take hr
      have h2 := (mem_sortTimeDesc _ _).mp h1
      have h3 := (List.mem_filter.mp h2).2
      simp only [Bool.and_eq_true, beq_iff_eq, inWindow, decide_eq_true_eq] at h3
      exact h3
    · exact List.Pairwise.sublist (List.take_sublist _ _) (pairwise_sortTimeDesc _)
    · rw [List.length_take]
      exact Nat.min_le_left _ _
  · refine ⟨(sortTimeDesc (db.filter
        (fun r => inWindow env.now h r))).take l.toNat, ?_, ?_, ?_, ?_⟩
    · simp [handle_get_all_sensors, getAllPayloadNoSensor, decodeObj, dictGet, dictGetD,
        lookupLast, truthy, hconn, pyToInt_intCast, hexec, hshape, hnl]
    · intro r hr
      have h1 := List.mem_of_mem_take hr
      have h2 := (mem_sortTimeDesc _ _).mp h1
      have h3 := (List.mem_filter.mp h2).2
      simpa only [inWindow, decide_eq_true_eq] using h3
    · exact List.Pairwise.sublist (List.take_sublist _ _) (pairwise_sortTimeDesc _)
    · rw [List.length_take]
      exact Nat.min_le_left _ _

/-- C6 witness: the amended theorem applied at a concrete table, sensor 1,
24 hours and limit 1, with every hypothesis discharged. -/
theorem c6_range_query_amended_witness :
    ∃ R, handle_get_all_sensors envOk
        [⟨99, 1, Option.none, Option.none⟩, ⟨98, 1, Option.none, Option.none⟩]
        (.parsed (getAllPayloadWith 1 24 1)) =
      ⟨[resp get_all_response 200 (.rows R R.length)],
       [.openC, .execQ qGetAllFiltered, .closeC],
       [⟨99, 1, Option.none, Option.none⟩, ⟨98, 1, Option.none, Option.none⟩]⟩ ∧
      (∀ r ∈ R, r.sensor_id = 1 ∧ envOk.now - 24 < r.time) ∧
      R.Pairwise (fun a b => b.time ≤ a.time) ∧
      R.length ≤ (1 : Int).toNat :=
  (c6_range_query_amended envOk
    [⟨99, 1, Option.none, Option.none⟩, ⟨98, 1, Option.none, Option.none⟩]
    1 24 1 rfl rfl rfl (by decide) (by decide)).1

-- ============== CLAIM C7 ==============

/-- C7 counterexample: the claim is false — no finally/with block guards
the handlers, so when the query raises, the error envelope is published
but the opened connection is never closed: the trace of a GetAll whose
execute fails holds the open event and no close event. -/
theorem c7_counterexample_leak_on_failure :
    (handle_get_all_sensors envExecFail [] Payload.empty).events =
      [Ev.openC, Ev.execQ qGetAllUnfiltered] ∧
    Ev.openC ∈ (handle_get_all_sensors envExecFail [] Payload.empty).events ∧
    Ev.closeC ∉ (handle_get_all_sensors envExecFail [] Payload.empty).events ∧
    statusOf (handle_get_all_sensors envExecFail [] Payload.empty) = Option.some 500 := by
  refine ⟨rfl, ?_, ?_, rfl⟩ <;> decide

set_option maxHeartbeats 1000000 in
/-- C7 amended: every one of the ten operation invocations opens at most
one store connection and never closes more often than it opens; on the
non-exception exits the connection is released — each handler's success
status closes exactly the connection it opened, and the Update and
Delete 404 paths close it too — but on an exception after the open (for
instance the 409 duplicate-key path of Create) the handler publishes the
error envelope with the connection left unclosed. -/
theorem c7_scoped_connection_amended :
    ∀ (env : Env) (db : List Row) (p : Payload),
    connScoped (handle_health_check env db p) 200 ∧
    connScoped (handle_get_all_sensors env db p) 200 ∧
    connScoped (handle_get_sensor_by_id env db p) 200 ∧
    connScoped (handle_create_sensor env db p) 201 ∧
    connScoped (handle_create_bulk_sensors env db p) 201 ∧
    connScoped (handle_update_sensor env db p) 200 ∧
    connScoped (handle_delete_sensor env db p) 200 ∧
    connScoped (handle_delete_sensor_by_id env db p) 200 ∧
    connScoped (handle_get_stats env db p) 200 ∧
    connScoped (handle_time_bucket env db p) 200 ∧
    (statusOf (handle_update_sensor env db p) = Option.some 404 →
       (handle_update_sensor env db p).events.count Ev.openC = 1 ∧
       (handle_update_sensor env db p).events.count Ev.closeC = 1) ∧
    (statusOf (handle_delete_sensor env db p) = Option.some 404 →
       (handle_delete_sensor env db p).events.count Ev.openC = 1 ∧
       (handle_delete_sensor env db p).events.count Ev.closeC = 1) ∧
    (statusOf (handle_create_sensor env db p) = Option.some 409 →
       (handle_create_sensor env db p).events.count Ev.openC = 1 ∧
       (handle_create_sensor env db p).events.count Ev.closeC = 0) := by
  intro env db p
  refine ⟨?_, ?_, ?_, ?_, ?_, ?_, ?_, ?_, ?_, ?_, ?_, ?_, ?_⟩
  · unfold connScoped handle_health_check
    repeat' (first | split | dsimp only)
    all_goals simp [statusOf, resp, List.count_cons]
  · unfold connScoped handle_get_all_sensors
    repeat' (first | split | dsimp only)
    all_goals simp [statusOf, resp, List.count_cons]
  · unfold connScoped handle_get_sensor_by_id
    repeat' (first | split | dsimp only)
    all_goals simp [statusOf, resp, List.count_cons]
  · unfold connScoped handle_create_sensor
    repeat' (first | split | dsimp only)
    all_goals simp [statusOf, resp, List.count_cons]
  · unfold connScoped handle_create_bulk_sensors
    repeat' (first | split | dsimp only)
    all_goals try (simp [statusOf, resp, List.count_cons]; done)
    all_goals rename_i heq
    all_goals obtain ⟨ho, hc⟩ := bulk_evs_counts heq
    all_goals simp [statusOf, resp, List.count_append, List.count_cons, ho, hc]
  · unfold connScoped handle_update_sensor
    repeat' (first | split | dsimp only)
    all_goals simp [statusOf, resp, List.count_cons]
  · unfold connScoped handle_delete_sensor
    repeat' (first | split | dsimp only)
    all_goals simp [statusOf, resp, List.count_cons]
  · unfold connScoped handle_delete_sensor_by_id
    repeat' (first | split | dsimp only)
    all_goals simp [statusOf, resp, List.count_cons]
  · unfold connScoped handle_get_stats
    repeat' (first | split | dsimp only)
    all_goals simp [statusOf, resp, List.count_cons]
  · unfold connScoped handle_time_bucket
    repeat' (first | split | dsimp only)
    all_goals simp [statusOf, resp, List.count_cons]
  · unfold handle_update_sensor
    repeat' (first | split | dsimp only)
    all_goals simp [statusOf, resp, List.count_cons]
  · unfold handle_delete_sensor
    repeat' (first | split | dsimp only)
    all_goals simp [statusOf, resp, List.count_cons]
  · unfold handle_create_sensor
    repeat' (first | split | dsimp only)
    all_goals simp [statusOf, resp, List.count_cons]

set_option maxHeartbeats 1000000 in
/-- C7 amended witness: the theorem applied at a concrete invocation whose
200 success closes the connection it opened, and at a concrete Update
whose 404 path also closes it. -/
theorem c7_scoped_connection_amended_witness :
    statusOf (handle_get_all_sensors envOk [] Payload.empty) = Option.some 200 ∧
    (handle_get_all_sensors envOk [] Payload.empty).events.count Ev.openC = 1 ∧
    (handle_get_all_sensors envOk [] Payload.empty).events.count Ev.closeC = 1 ∧
    statusOf (handle_update_sensor envOk []
      (.parsed (keyedPayload 5 1 Option.none Option.none))) = Option.some 404 ∧
    (handle_update_sensor envOk []
      (.parsed (keyedPayload 5 1 Option.none Option.none))).events.count Ev.openC = 1 ∧
    (handle_update_sensor envOk []
      (.parsed (keyedPayload 5 1 Option.none Option.none))).events.count Ev.closeC = 1 :=
  ⟨rfl,
   ((c7_scoped_connection_amended envOk [] Payload.empty).2.1).2.2 rfl |>.1,
   ((c7_scoped_connection_amended envOk [] Payload.empty).2.1).2.2 rfl |>.2,
   rfl,
   ((c7_scoped_connection_amended envOk []
      (.parsed (keyedPayload 5 1 Option.none Option.none))).2.2.2.2.2.2.2.2.2.2.1 rfl).1,
   ((c7_scoped_connection_amended envOk []
      (.parsed (keyedPayload 5 1 Option.none Option.none))).2.2.2.2.2.2.2.2.2.2.1 rfl).2⟩

-- ============== CLAIM C3 ==============

/-- C3 counterexample: the claim is false as universally stated — a batch
of N = 1 entries of which K = 0 lack sensor_id does not always insert
N − K = 1 rows: when the single entry duplicates an existing key, the
whole batch answers 500, nothing is committed and the table is unchanged
(0 rows inserted, none reported). -/
theorem c3_counterexample_failing_insert_aborts :
    handle_create_bulk_sensors envOk [⟨5, 1, Option.none, Option.none⟩]
        (.parsed (.arr [.obj [("sensor_id", .num 1), ("time", .num 5)]])) =
      ⟨[resp create_bulk_response 500 (.err dupErrMsg)],
       [.openC, .execQ qBulkInsertWithTime], [⟨5, 1, Option.none, Option.none⟩]⟩ ∧
    ([.obj [("sensor_id", .num 1), ("time", .num 5)]] : List PyVal).length = 1 ∧
    ([.obj [("sensor_id", .num 1), ("time", .num 5)]] : List PyVal).countP entrySkipped = 0 :=
  ⟨rfl, rfl, rfl⟩

/-- C3 amended: provided every non-skipped entry of the batch inserts
successfully (equivalently, the insert loop completes without a store
error), a CreateBulk over N entries of which K lack sensor_id skips
exactly those K, inserts exactly N − K rows, reports exactly N − K as a
bare count, and the trace carries exactly one COMMIT covering the whole
batch; if any insert raises, the batch answers 500 and commits nothing —
the table is returned unchanged. -/
theorem c3_bulk_insert_amended :
    ∀ (env : Env) (db : List Row) (entries : List PyVal),
    env.connectFail = false → entries ≠ [] →
    ((∀ evs tx count,
        bulkInsertLoop env entries 0 db 0 [.openC] = (evs, Except.ok (tx, count)) →
        handle_create_bulk_sensors env db (.parsed (.arr entries)) =
          ⟨[resp create_bulk_response 201 (.bulkCreated count)],
           evs ++ [Ev.commitC, Ev.closeC], tx⟩ ∧
        count = entries.length - entries.countP entrySkipped ∧
        tx.length = db.length + count ∧
        (evs ++ [Ev.commitC, Ev.closeC]).count Ev.commitC = 1) ∧
     (∀ evs e,
        bulkInsertLoop env entries 0 db 0 [.openC] = (evs, Except.error e) →
        handle_create_bulk_sensors env db (.parsed (.arr entries)) =
          ⟨[resp create_bulk_response 500 (.err e.msg)], evs, db⟩)) := by
  intro env db entries hconn hne
  constructor
  · intro evs tx count hloop
    obtain ⟨hc, hl, he⟩ := bulkInsertLoop_ok env entries 0 db 0 [.openC] evs tx count hloop
    have hcount : count = entries.length - entries.countP entrySkipped := by
      have := countP_not_add_countP entrySkipped entries
      omega
    refine ⟨?_, hcount, by omega, ?_⟩
    · simp only [handle_create_bulk_sensors, decodeList,
        List.isEmpty_eq_true, hne, if_false, hconn, Bool.false_eq_true, hloop]
    · rw [List.count_append, he]
      rfl
  · intro evs e hloop
    simp only [handle_create_bulk_sensors, decodeList,
      List.isEmpty_eq_true, hne, if_false, hconn, Bool.false_eq_true, hloop]

/-- C3 witness: the amended theorem applied at a concrete batch of two
entries, one of which lacks sensor_id: the loop succeeds, one row is
inserted and reported, and one COMMIT covers the batch. -/
theorem c3_bulk_insert_amended_witness :
    bulkInsertLoop envOk
        [.obj [("sensor_id", .num 1), ("time", .num 5)], .obj [("humidity", .num 3)]]
        0 [] 0 [.openC] =
      ([.openC, .execQ qBulkInsertWithTime],
       Except.ok ([⟨5, 1, Option.none, Option.none⟩], 1)) ∧
    handle_create_bulk_sensors envOk []
        (.parsed (.arr [.obj [("sensor_id", .num 1), ("time", .num 5)],
                        .obj [("humidity", .num 3)]])) =
      ⟨[resp create_bulk_response 201 (.bulkCreated 1)],
       [.openC, .execQ qBulkInsertWithTime] ++ [.commitC, .closeC],
       [⟨5, 1, Option.none, Option.none⟩]⟩ ∧
    (1 : Nat) =
      ([.obj [("sensor_id", .num 1), ("time", .num 5)],
        .obj [("humidity", .num 3)]] : List PyVal).length -
      ([.obj [("sensor_id", .num 1), ("time", .num 5)],
        .obj [("humidity", .num 3)]] : List PyVal).countP entrySkipped :=
  ⟨rfl,
   ((c3_bulk_insert_amended envOk []
      [.obj [("sensor_id", .num 1), ("time", .num 5)], .obj [("humidity", .num 3)]]
      rfl (List.cons_ne_nil _ _)).1 [.openC, .execQ qBulkInsertWithTime]
      [⟨5, 1, Option.none, Option.none⟩] 1 rfl).1,
   by decide⟩

end MqttApp
